import Mathlib

/-!
Verification of the github-mcp core request-execution and protocol layer.

This development is a shallow embedding, in Lean 4, of the Rust sources of
the github-mcp server:

* src/http/mod.rs  — error classification, retry/backoff loop for REST and
  GraphQL calls, rate extraction, and the opaque REST pagination-cursor
  codec (base64 of compact JSON);
* src/mcp.rs       — metadata pruning and the tools/call result envelope;
* src/server.rs    — the line-delimited JSON-RPC dispatch loop and the tool
  call-sites.

Modelling conventions:

* Machine integers (u32, u64, i32, i64) are modelled as Nat or Int with
  explicit range hypotheses where they matter; HTTP statuses are Nat.
* Rust strings appearing on the wire (cursor tokens, JSON documents) are
  modelled as lists of bytes (List Nat, each < 256); Rust String equality
  coincides with byte-sequence equality because Rust strings are UTF-8
  byte sequences.  Strings that never cross a byte-level boundary
  (error codes, messages, method names) are modelled as Lean String.
* The network is modelled as a function from the attempt number to the
  outcome of that attempt; the random jitter drawn by fastrand is a
  function from the attempt number to the drawn value, with the range
  guarantee of the RNG as a hypothesis.
* Durations are in milliseconds (reqwest Duration values are built from
  millis in compute_backoff and from secs for Retry-After).
-/

/- ## Error classification (src/http/mod.rs, map_status_to_error) -/

/-- ErrorInfo from src/http/mod.rs. -/
structure ErrorInfo where
  code : String
  message : String
  retriable : Bool
deriving Repr, DecidableEq

/-- reqwest StatusCode.is_success: 200 <= s < 300. -/
def is_success_status (s : Nat) : Bool := 200 ≤ s && s < 300

/-- reqwest StatusCode.is_server_error: 500 <= s < 600. -/
def is_server_error_status (s : Nat) : Bool := 500 ≤ s && s < 600

/-- map_status_to_error from src/http/mod.rs lines 49-65. -/
def map_status_to_error (status : Nat) (message : String) : ErrorInfo :=
  let cr : String × Bool :=
    if status = 400 then ("bad_request", false)
    else if status = 401 then ("unauthorized", false)
    else if status = 403 then ("forbidden", false)
    else if status = 404 then ("not_found", false)
    else if status = 409 then ("conflict", false)
    else if status = 429 then ("rate_limited", true)
    else if is_server_error_status status then ("upstream_error", true)
    else ("server_error", false)
  { code := cr.1, message := message, retriable := cr.2 }

/- ## Backoff (src/http/mod.rs, compute_backoff) -/

/-- u64::MAX, the saturation bound of saturating_mul. -/
def u64Max : Nat := 2 ^ 64 - 1

/-- 200u64.saturating_mul(1u64 << attempt.min(5)). -/
def backoff_base (attempt : Nat) : Nat :=
  min (200 * 2 ^ (min attempt 5)) u64Max

/-- The capped backoff basis: 5_000u64.min(base), in milliseconds. -/
def capped_backoff (attempt : Nat) : Nat :=
  min 5000 (backoff_base attempt)

/-- compute_backoff from src/http/mod.rs lines 115-124, in milliseconds.
jitter is the value drawn by fastrand::u64(0..=max/2); the RNG guarantees
jitter <= capped_backoff attempt / 2, which theorems take as a hypothesis.
retry_after, when present, is the Retry-After duration in milliseconds. -/
def compute_backoff (attempt : Nat) (retry_after : Option Nat) (jitter : Nat) : Nat :=
  match retry_after with
  | some d => d
  | none => capped_backoff attempt / 2 + jitter

/-- The expected value of compute_backoff attempt none jitter when jitter is
drawn uniformly from 0..=capped/2: capped/2 + (capped/2)/2 (the divisions by
2 inside capped/2 are the Nat divisions performed by the code; the outer
halving of the jitter mean is exact, in ℚ). -/
def expected_backoff (attempt : Nat) : ℚ :=
  (capped_backoff attempt / 2 : Nat) + ((capped_backoff attempt / 2 : Nat) : ℚ) / 2

/- ## The REST retry loop (src/http/mod.rs, rest_get_json and friends)

Each helper is a loop over attempts.  The network is modelled by a function
from the attempt number to that attempt's outcome: either the send failed
at the transport level, or a response arrived with a status, an optional
parsed Retry-After value (in seconds), the rate-limit headers, the result
of decoding the body into the expected type (only consulted on success
statuses), and the raw body text (only consulted on terminal errors). -/

/-- RateMeta from src/types.rs. -/
structure RateMeta where
  remaining : Option Int
  used : Option Int
  reset_at : Option String
deriving Repr, DecidableEq

/-- The outcome of one send() attempt, as observed by the loop body. -/
inductive SendResult (α : Type) where
  | transportErr (msg : String)
  | response (status : Nat) (retryAfterSecs : Option Nat) (rate : RateMeta)
      (decoded : Except String α) (bodyText : String)

/-- RestResponse from src/http/mod.rs (http::Meta is its single rate field;
hasHeaders records whether the headers were captured, None on transport
failure). -/
structure RestResponseM (α : Type) where
  value : Option α
  rate : Option RateMeta
  error : Option ErrorInfo
  status : Nat
  hasHeaders : Bool

/-- One full run of a REST helper: the returned response, the number of
HTTP attempts actually sent, and the backoff sleeps performed (ms). -/
structure RestRun (α : Type) where
  resp : RestResponseM α
  attemptsMade : Nat
  sleeps : List Nat

/-- The loop of rest_get_json (src/http/mod.rs lines 136-233), entered at a
given attempt counter.  On transport failure it retries while attempt < 5;
on a success status it decodes the body (decode failure is a terminal,
non-retriable server_error); on 429/5xx it retries while attempt < 5,
sleeping compute_backoff(attempt, retry_after) where a Retry-After of d
seconds is d*1000 ms; any other status is terminal via
map_status_to_error. -/
def rest_get_json_from {α : Type} (upstream : Nat → SendResult α) (jitter : Nat → Nat)
    (attempt : Nat) : RestRun α :=
  match upstream attempt with
  | .transportErr msg =>
    if _h : attempt < 5 then
      let s := compute_backoff attempt none (jitter attempt)
      let r := rest_get_json_from upstream jitter (attempt + 1)
      ⟨r.resp, r.attemptsMade + 1, s :: r.sleeps⟩
    else
      ⟨⟨none, none, some ⟨"upstream_error", msg, true⟩, 500, false⟩, 1, []⟩
  | .response status retryAfterSecs rate decoded body =>
    if is_success_status status then
      match decoded with
      | .ok v => ⟨⟨some v, some rate, none, status, true⟩, 1, []⟩
      | .error e => ⟨⟨none, some rate, some ⟨"server_error", e, false⟩, status, true⟩, 1, []⟩
    else if _h : (status = 429 ∨ is_server_error_status status = true) ∧ attempt < 5 then
      let s := compute_backoff attempt (retryAfterSecs.map (· * 1000)) (jitter attempt)
      let r := rest_get_json_from upstream jitter (attempt + 1)
      ⟨r.resp, r.attemptsMade + 1, s :: r.sleeps⟩
    else
      ⟨⟨none, some rate, some (map_status_to_error status body), status, true⟩, 1, []⟩
termination_by 6 - attempt
decreasing_by all_goals omega

/-- rest_get_json: the loop entered with attempt = 0. -/
def rest_get_json {α : Type} (upstream : Nat → SendResult α) (jitter : Nat → Nat) :
    RestRun α :=
  rest_get_json_from upstream jitter 0

/-- The loop of rest_post_json (src/http/mod.rs lines 507-592).  It differs
from the GET loop in its success test (is_success || status == 202, the
ACCEPTED special case) and in that its retry sleep always calls
compute_backoff(attempt, None): the Retry-After header is never read. -/
def rest_post_json_from {α : Type} (upstream : Nat → SendResult α) (jitter : Nat → Nat)
    (attempt : Nat) : RestRun α :=
  match upstream attempt with
  | .transportErr msg =>
    if _h : attempt < 5 then
      let s := compute_backoff attempt none (jitter attempt)
      let r := rest_post_json_from upstream jitter (attempt + 1)
      ⟨r.resp, r.attemptsMade + 1, s :: r.sleeps⟩
    else
      ⟨⟨none, none, some ⟨"upstream_error", msg, true⟩, 500, false⟩, 1, []⟩
  | .response status _retryAfterSecs rate decoded body =>
    if is_success_status status || status == 202 then
      match decoded with
      | .ok v => ⟨⟨some v, some rate, none, status, true⟩, 1, []⟩
      | .error e => ⟨⟨none, some rate, some ⟨"server_error", e, false⟩, status, true⟩, 1, []⟩
    else if _h : (status = 429 ∨ is_server_error_status status = true) ∧ attempt < 5 then
      let s := compute_backoff attempt none (jitter attempt)
      let r := rest_post_json_from upstream jitter (attempt + 1)
      ⟨r.resp, r.attemptsMade + 1, s :: r.sleeps⟩
    else
      ⟨⟨none, some rate, some (map_status_to_error status body), status, true⟩, 1, []⟩
termination_by 6 - attempt
decreasing_by all_goals omega

/-- The loop of rest_put_json (src/http/mod.rs lines 331-416): plain
is_success test, and the retry sleep always calls
compute_backoff(attempt, None) — Retry-After is never read. -/
def rest_put_json_from {α : Type} (upstream : Nat → SendResult α) (jitter : Nat → Nat)
    (attempt : Nat) : RestRun α :=
  match upstream attempt with
  | .transportErr msg =>
    if _h : attempt < 5 then
      let s := compute_backoff attempt none (jitter attempt)
      let r := rest_put_json_from upstream jitter (attempt + 1)
      ⟨r.resp, r.attemptsMade + 1, s :: r.sleeps⟩
    else
      ⟨⟨none, none, some ⟨"upstream_error", msg, true⟩, 500, false⟩, 1, []⟩
  | .response status _retryAfterSecs rate decoded body =>
    if is_success_status status then
      match decoded with
      | .ok v => ⟨⟨some v, some rate, none, status, true⟩, 1, []⟩
      | .error e => ⟨⟨none, some rate, some ⟨"server_error", e, false⟩, status, true⟩, 1, []⟩
    else if _h : (status = 429 ∨ is_server_error_status status = true) ∧ attempt < 5 then
      let s := compute_backoff attempt none (jitter attempt)
      let r := rest_put_json_from upstream jitter (attempt + 1)
      ⟨r.resp, r.attemptsMade + 1, s :: r.sleeps⟩
    else
      ⟨⟨none, some rate, some (map_status_to_error status body), status, true⟩, 1, []⟩
termination_by 6 - attempt
decreasing_by all_goals omega

/-- The loop of rest_patch_json (src/http/mod.rs lines 419-504): identical
in structure to rest_put_json (a duplicated helper in the source). -/
def rest_patch_json_from {α : Type} (upstream : Nat → SendResult α) (jitter : Nat → Nat)
    (attempt : Nat) : RestRun α :=
  match upstream attempt with
  | .transportErr msg =>
    if _h : attempt < 5 then
      let s := compute_backoff attempt none (jitter attempt)
      let r := rest_patch_json_from upstream jitter (attempt + 1)
      ⟨r.resp, r.attemptsMade + 1, s :: r.sleeps⟩
    else
      ⟨⟨none, none, some ⟨"upstream_error", msg, true⟩, 500, false⟩, 1, []⟩
  | .response status _retryAfterSecs rate decoded body =>
    if is_success_status status then
      match decoded with
      | .ok v => ⟨⟨some v, some rate, none, status, true⟩, 1, []⟩
      | .error e => ⟨⟨none, some rate, some ⟨"server_error", e, false⟩, status, true⟩, 1, []⟩
    else if _h : (status = 429 ∨ is_server_error_status status = true) ∧ attempt < 5 then
      let s := compute_backoff attempt none (jitter attempt)
      let r := rest_patch_json_from upstream jitter (attempt + 1)
      ⟨r.resp, r.attemptsMade + 1, s :: r.sleeps⟩
    else
      ⟨⟨none, some rate, some (map_status_to_error status body), status, true⟩, 1, []⟩
termination_by 6 - attempt
decreasing_by all_goals omega

/- ## GraphQL executor (src/http/mod.rs, graphql_post) -/

/-- What the loop body of graphql_post observes of a 2xx body after reading
the response text: the text failed to parse as JSON; it parsed as JSON but
not into the GraphQlResponse shape; or it parsed, yielding the optional
data, the optional errors array (each error reduced to its message), and
the rate-limit record extracted from data.rateLimit when present. -/
inductive GqlBody (δ : Type) where
  | invalidJson (msg : String)
  | badShape (msg : String)
  | parsed (data : Option δ) (errors : Option (List String)) (rate : Option RateMeta)

/-- One send() attempt of graphql_post. -/
inductive GqlSend (δ : Type) where
  | transportErr (msg : String)
  | response (status : Nat) (body : GqlBody δ) (bodyText : String)

/-- One full run of graphql_post: the (data, meta-rate, error) triple the
function returns, the number of attempts sent, and the backoff sleeps. -/
structure GqlRun (δ : Type) where
  data : Option δ
  rate : Option RateMeta
  error : Option ErrorInfo
  attemptsMade : Nat
  sleeps : List Nat

/-- The loop of graphql_post (src/http/mod.rs lines 687-808), entered at a
given attempt counter.  A 2xx status is handled entirely on the current
attempt: JSON/shape parse failures are terminal server_error; a present
errors array is a terminal upstream_error (retriable-flagged, messages
joined with a semicolon, no data, no rate); otherwise data and the
extracted rate are returned.  Transport failures and 429/5xx retry while
attempt < 5, always with compute_backoff(attempt, None) — graphql_post
sets retry_after to None. -/
def graphql_post_from {δ : Type} (upstream : Nat → GqlSend δ) (jitter : Nat → Nat)
    (attempt : Nat) : GqlRun δ :=
  match upstream attempt with
  | .transportErr msg =>
    if _h : attempt < 5 then
      let s := compute_backoff attempt none (jitter attempt)
      let r := graphql_post_from upstream jitter (attempt + 1)
      ⟨r.data, r.rate, r.error, r.attemptsMade + 1, s :: r.sleeps⟩
    else
      ⟨none, none, some ⟨"upstream_error", msg, true⟩, 1, []⟩
  | .response status body bodyText =>
    if is_success_status status then
      match body with
      | .invalidJson msg => ⟨none, none, some ⟨"server_error", msg, false⟩, 1, []⟩
      | .badShape msg => ⟨none, none, some ⟨"server_error", msg, false⟩, 1, []⟩
      | .parsed data errors rate =>
        match errors with
        | some errs =>
          ⟨none, none,
            some ⟨"upstream_error", String.intercalate "; " errs, true⟩, 1, []⟩
        | none => ⟨data, rate, none, 1, []⟩
    else if _h : (status = 429 ∨ is_server_error_status status = true) ∧ attempt < 5 then
      let s := compute_backoff attempt none (jitter attempt)
      let r := graphql_post_from upstream jitter (attempt + 1)
      ⟨r.data, r.rate, r.error, r.attemptsMade + 1, s :: r.sleeps⟩
    else
      ⟨none, none, some (map_status_to_error status bodyText), 1, []⟩
termination_by 6 - attempt
decreasing_by all_goals omega

/-- graphql_post: the loop entered with attempt = 0. -/
def graphql_post {δ : Type} (upstream : Nat → GqlSend δ) (jitter : Nat → Nat) : GqlRun δ :=
  graphql_post_from upstream jitter 0

/- ## The REST cursor codec (src/http/mod.rs, encode_rest_cursor /
decode_rest_cursor)

encode_rest_cursor is base64::URL_SAFE_NO_PAD.encode(serde_json::to_vec(&c));
decode_rest_cursor base64-decodes and then serde_json-parses, returning
None on any failure.  Wire data is byte lists (each byte < 256); a token is
the byte list of the Rust String returned by encode. -/

/-- The URL-safe base64 alphabet: sextet (0..63) to ASCII byte
(A-Z a-z 0-9 - _). -/
def b64_alphabet (s : Nat) : Nat :=
  if s < 26 then 65 + s
  else if s < 52 then 97 + (s - 26)
  else if s < 62 then 48 + (s - 52)
  else if s = 62 then 45
  else 95

/-- Inverse alphabet lookup: ASCII byte to sextet, none for bytes outside
the URL-safe alphabet (including the padding byte 61). -/
def b64_char_decode (b : Nat) : Option Nat :=
  if 65 ≤ b ∧ b ≤ 90 then some (b - 65)
  else if 97 ≤ b ∧ b ≤ 122 then some (26 + (b - 97))
  else if 48 ≤ b ∧ b ≤ 57 then some (52 + (b - 48))
  else if b = 45 then some 62
  else if b = 95 then some 63
  else none

/-- Split a byte stream into big-endian sextets, three bytes to four
sextets, with the unpadded tail forms (1 byte to 2 sextets, 2 to 3). -/
def b64_sextets : List Nat → List Nat
  | [] => []
  | [a] => [a / 4, a % 4 * 16]
  | [a, b] => [a / 4, a % 4 * 16 + b / 16, b % 16 * 4]
  | a :: b :: c :: rest =>
    a / 4 :: (a % 4 * 16 + b / 16) :: (b % 16 * 4 + c / 64) :: c % 64 :: b64_sextets rest

/-- base64 URL_SAFE_NO_PAD encoding of a byte list, as ASCII bytes. -/
def b64_encode (bs : List Nat) : List Nat :=
  (b64_sextets bs).map b64_alphabet

/-- Map the inverse alphabet over a token, failing on any non-alphabet
byte. -/
def b64_map_decode : List Nat → Option (List Nat)
  | [] => some []
  | b :: rest =>
    match b64_char_decode b with
    | none => none
    | some s => (b64_map_decode rest).map (s :: ·)

/-- Reassemble bytes from sextets, four sextets to three bytes; a trailing
chunk of one sextet is invalid, and trailing chunks of two or three
sextets must have zero trailing bits (the crate's canonical-encoding
check). -/
def b64_decode_sextets : List Nat → Option (List Nat)
  | [] => some []
  | [_] => none
  | [w, x] => if x % 16 = 0 then some [w * 4 + x / 16] else none
  | [w, x, y] => if y % 4 = 0 then some [w * 4 + x / 16, x % 16 * 16 + y / 4] else none
  | w :: x :: y :: z :: rest =>
    (b64_decode_sextets rest).map
      (fun t => (w * 4 + x / 16) :: (x % 16 * 16 + y / 4) :: (y % 4 * 64 + z) :: t)

/-- base64 URL_SAFE_NO_PAD decoding of a token. -/
def b64_decode (token : List Nat) : Option (List Nat) :=
  (b64_map_decode token).bind b64_decode_sextets

/-- Decimal digits of n, most significant first ([] for 0). -/
def natDigits : Nat → List Nat
  | 0 => []
  | n + 1 => natDigits ((n + 1) / 10) ++ [(n + 1) % 10]
termination_by n => n
decreasing_by exact Nat.div_lt_self (by omega) (by omega)

/-- The ASCII decimal rendering of n, as serde_json writes integers. -/
def natToAscii (n : Nat) : List Nat :=
  if n = 0 then [48] else (natDigits n).map (· + 48)

/-- ASCII decimal digit test. -/
def isDigitByte (b : Nat) : Bool := 48 ≤ b && b ≤ 57

/-- Consume a run of decimal digits, folding them onto an accumulator. -/
def parseDigits : List Nat → Nat → Nat × List Nat
  | b :: rest, acc =>
    if isDigitByte b then parseDigits rest (acc * 10 + (b - 48)) else (acc, b :: rest)
  | [], acc => (acc, [])

/-- Lowercase hex digit byte for a value < 16, as serde_json emits. -/
def hexDigitByte (n : Nat) : Nat := if n < 10 then 48 + n else 87 + n

/-- Hex digit byte to value (serde accepts both cases when reading). -/
def hexVal (b : Nat) : Option Nat :=
  if 48 ≤ b ∧ b ≤ 57 then some (b - 48)
  else if 97 ≤ b ∧ b ≤ 102 then some (b - 87)
  else if 65 ≤ b ∧ b ≤ 70 then some (b - 55)
  else none

/-- UTF-8 encoding of a Unicode code point, used when the reader decodes a
hex escape. -/
def utf8_encode_cp (c : Nat) : List Nat :=
  if c < 128 then [c]
  else if c < 2048 then [192 + c / 64, 128 + c % 64]
  else if c < 65536 then [224 + c / 4096, 128 + c / 64 % 64, 128 + c % 64]
  else [240 + c / 262144, 128 + c / 4096 % 64, 128 + c / 64 % 64, 128 + c % 64]

/-- serde_json string escaping, per byte: quote and backslash get a
two-byte escape, the five short control escapes are used where they exist,
any other byte below 0x20 becomes a lowercase hex escape, and every other
byte (including all non-ASCII bytes) passes through verbatim. -/
def escape_json_byte (b : Nat) : List Nat :=
  if b = 34 then [92, 34]
  else if b = 92 then [92, 92]
  else if b = 8 then [92, 98]
  else if b = 9 then [92, 116]
  else if b = 10 then [92, 110]
  else if b = 12 then [92, 102]
  else if b = 13 then [92, 114]
  else if b < 32 then [92, 117, 48, 48, hexDigitByte (b / 16), hexDigitByte (b % 16)]
  else [b]

/-- serde_json escaping of a whole string body. -/
def escape_json : List Nat → List Nat
  | [] => []
  | b :: rest => escape_json_byte b ++ escape_json rest

/-- Strict UTF-8 validity (as Rust str requires): rejects overlong forms,
surrogates and code points above 0x10FFFF. -/
def is_valid_utf8 : List Nat → Bool
  | [] => true
  | b :: rest =>
    if b < 128 then is_valid_utf8 rest
    else if 194 ≤ b ∧ b ≤ 223 then
      match rest with
      | c1 :: r => (128 ≤ c1 && c1 ≤ 191) && is_valid_utf8 r
      | [] => false
    else if b = 224 then
      match rest with
      | c1 :: c2 :: r =>
        (160 ≤ c1 && c1 ≤ 191) && (128 ≤ c2 && c2 ≤ 191) && is_valid_utf8 r
      | _ => false
    else if (225 ≤ b ∧ b ≤ 236) ∨ b = 238 ∨ b = 239 then
      match rest with
      | c1 :: c2 :: r =>
        (128 ≤ c1 && c1 ≤ 191) && (128 ≤ c2 && c2 ≤ 191) && is_valid_utf8 r
      | _ => false
    else if b = 237 then
      match rest with
      | c1 :: c2 :: r =>
        (128 ≤ c1 && c1 ≤ 159) && (128 ≤ c2 && c2 ≤ 191) && is_valid_utf8 r
      | _ => false
    else if b = 240 then
      match rest with
      | c1 :: c2 :: c3 :: r =>
        (144 ≤ c1 && c1 ≤ 191) && (128 ≤ c2 && c2 ≤ 191) && (128 ≤ c3 && c3 ≤ 191) &&
          is_valid_utf8 r
      | _ => false
    else if 241 ≤ b ∧ b ≤ 243 then
      match rest with
      | c1 :: c2 :: c3 :: r =>
        (128 ≤ c1 && c1 ≤ 191) && (128 ≤ c2 && c2 ≤ 191) && (128 ≤ c3 && c3 ≤ 191) &&
          is_valid_utf8 r
      | _ => false
    else if b = 244 then
      match rest with
      | c1 :: c2 :: c3 :: r =>
        (128 ≤ c1 && c1 ≤ 143) && (128 ≤ c2 && c2 ≤ 191) && (128 ≤ c3 && c3 ≤ 191) &&
          is_valid_utf8 r
      | _ => false
    else false

/-- Four hex digits to their value, none if any byte is not a hex
digit. -/
def hex4 (h1 h2 h3 h4 : Nat) : Option Nat :=
  match hexVal h1, hexVal h2, hexVal h3, hexVal h4 with
  | some a, some b, some c, some d => some (a * 4096 + b * 256 + c * 16 + d)
  | _, _, _, _ => none

/-- Read a JSON string body after the opening quote: returns the unescaped
content bytes and the input after the closing quote.  Escapes follow the
JSON grammar, surrogate pairs in hex escapes are combined, lone surrogates
and unescaped control bytes are rejected.  The fuel argument only bounds
recursion; every step consumes at least one input byte, so any fuel
exceeding the input length gives the reader's exact behaviour (callers
pass input length + 1). -/
def parseStringBody : Nat → List Nat → Option (List Nat × List Nat)
  | 0, _ => none
  | _ + 1, [] => none
  | fuel + 1, b :: rest =>
    if b = 34 then some ([], rest)
    else if b = 92 then
      match rest with
      | [] => none
      | e :: rest2 =>
        if e = 34 then (parseStringBody fuel rest2).map (fun p => (34 :: p.1, p.2))
        else if e = 92 then (parseStringBody fuel rest2).map (fun p => (92 :: p.1, p.2))
        else if e = 47 then (parseStringBody fuel rest2).map (fun p => (47 :: p.1, p.2))
        else if e = 98 then (parseStringBody fuel rest2).map (fun p => (8 :: p.1, p.2))
        else if e = 102 then (parseStringBody fuel rest2).map (fun p => (12 :: p.1, p.2))
        else if e = 110 then (parseStringBody fuel rest2).map (fun p => (10 :: p.1, p.2))
        else if e = 114 then (parseStringBody fuel rest2).map (fun p => (13 :: p.1, p.2))
        else if e = 116 then (parseStringBody fuel rest2).map (fun p => (9 :: p.1, p.2))
        else if e = 117 then
          match rest2 with
          | h1 :: h2 :: h3 :: h4 :: rest3 =>
            (match hex4 h1 h2 h3 h4 with
             | none => none
             | some cp =>
               if 55296 ≤ cp ∧ cp ≤ 56319 then
                 match rest3 with
                 | s1 :: s2 :: g1 :: g2 :: g3 :: g4 :: rest4 =>
                   if s1 = 92 ∧ s2 = 117 then
                     match hex4 g1 g2 g3 g4 with
                     | some cp2 =>
                       if 56320 ≤ cp2 ∧ cp2 ≤ 57343 then
                         (parseStringBody fuel rest4).map (fun p =>
                           (utf8_encode_cp
                             (65536 + (cp - 55296) * 1024 + (cp2 - 56320)) ++ p.1, p.2))
                       else none
                     | none => none
                   else none
                 | _ => none
               else if 56320 ≤ cp ∧ cp ≤ 57343 then none
               else (parseStringBody fuel rest3).map (fun p => (utf8_encode_cp cp ++ p.1, p.2)))
          | _ => none
        else none
    else if b < 32 then none
    else (parseStringBody fuel rest).map (fun p => (b :: p.1, p.2))

/-- Skip JSON whitespace (space, tab, newline, carriage return). -/
def skipWs : List Nat → List Nat
  | b :: rest => if b = 32 ∨ b = 9 ∨ b = 10 ∨ b = 13 then skipWs rest else b :: rest
  | [] => []

/-- The JSON values serde_json distinguishes here.  Integer numbers carry
their value; numbers with a fraction or exponent part are collapsed to
numNonInt, which no u32 field accepts — exactly as serde rejects
non-integer numbers for u32 — so decode_rest_cursor's result is
unchanged. -/
inductive BJson where
  | null
  | bool (b : Bool)
  | num (n : Int)
  | numNonInt
  | str (s : List Nat)
  | arr (xs : List BJson)
  | obj (fields : List (List Nat × BJson))

/-- Fraction part of a JSON number: a dot must be followed by at least one
digit; returns whether a fraction was present. -/
def parseFrac : List Nat → Option (Bool × List Nat)
  | [] => some (false, [])
  | b :: rest =>
    if b = 46 then
      match rest with
      | d :: r2 => if isDigitByte d then some (true, (parseDigits r2 0).2) else none
      | [] => none
    else some (false, b :: rest)

/-- Exponent part of a JSON number: e/E, optional sign, at least one
digit; returns whether an exponent was present. -/
def parseExp : List Nat → Option (Bool × List Nat)
  | b :: rest =>
    if b = 101 ∨ b = 69 then
      (match (match rest with
              | 43 :: r => r
              | 45 :: r => r
              | r => r) with
       | d :: r3 => if isDigitByte d then some (true, (parseDigits r3 0).2) else none
       | [] => none)
    else some (false, b :: rest)
  | [] => some (false, [])

/-- After the integer part: read any fraction/exponent; an integer with
neither is a num, anything else a numNonInt. -/
def parseNumTail (neg : Bool) (n : Nat) (bs : List Nat) : Option (BJson × List Nat) :=
  (parseFrac bs).bind fun pf =>
    (parseExp pf.2).bind fun pex =>
      if pf.1 || pex.1 then some (BJson.numNonInt, pex.2)
      else some (BJson.num (if neg then -(n : Int) else (n : Int)), pex.2)

/-- The digits of a JSON number after the optional sign: either a single 0
or a nonzero digit followed by a digit run (no leading zeros), then the
fraction and exponent parts. -/
def parseNumberCore (neg : Bool) : List Nat → Option (BJson × List Nat)
  | [] => none
  | b :: rest =>
    if b = 48 then parseNumTail neg 0 rest
    else if isDigitByte b then
      match parseDigits rest (b - 48) with
      | (n, rest2) => parseNumTail neg n rest2
    else none

/-- A JSON number: optional minus, then parseNumberCore. -/
def parseNumber : List Nat → Option (BJson × List Nat)
  | [] => none
  | b :: rest =>
    if b = 45 then parseNumberCore true rest else parseNumberCore false (b :: rest)

mutual
/-- One JSON value, dispatched on the first non-whitespace byte; fuel
bounds the recursion into nested containers (any fuel at least the input
length suffices, mirroring serde's input-driven recursion). -/
def parseValue : Nat → List Nat → Option (BJson × List Nat)
  | 0, _ => none
  | fuel + 1, bs =>
    match skipWs bs with
    | [] => none
    | b :: rest =>
      if b = 110 then
        match rest with
        | 117 :: 108 :: 108 :: r => some (.null, r)
        | _ => none
      else if b = 116 then
        match rest with
        | 114 :: 117 :: 101 :: r => some (.bool true, r)
        | _ => none
      else if b = 102 then
        match rest with
        | 97 :: 108 :: 115 :: 101 :: r => some (.bool false, r)
        | _ => none
      else if b = 34 then
        (parseStringBody (rest.length + 1) rest).bind fun p =>
          if is_valid_utf8 p.1 then some (.str p.1, p.2) else none
      else if b = 91 then
        match skipWs rest with
        | 93 :: r => some (.arr [], r)
        | r2 => (parseElems fuel r2).map fun p => (BJson.arr p.1, p.2)
      else if b = 123 then
        match skipWs rest with
        | 125 :: r => some (.obj [], r)
        | r2 => (parseMembers fuel r2).map fun p => (BJson.obj p.1, p.2)
      else parseNumber (b :: rest)

/-- One or more comma-separated array elements, up to the closing
bracket. -/
def parseElems : Nat → List Nat → Option (List BJson × List Nat)
  | 0, _ => none
  | fuel + 1, bs =>
    (parseValue fuel bs).bind fun p =>
      match skipWs p.2 with
      | 44 :: r2 => (parseElems fuel r2).map fun q => (p.1 :: q.1, q.2)
      | 93 :: r2 => some ([p.1], r2)
      | _ => none

/-- One or more comma-separated object members (quoted key, colon, value),
up to the closing byte 125; keys are validated as UTF-8 like any string. -/
def parseMembers : Nat → List Nat → Option (List (List Nat × BJson) × List Nat)
  | 0, _ => none
  | fuel + 1, bs =>
    match bs with
    | 34 :: rest =>
      (parseStringBody (rest.length + 1) rest).bind fun kp =>
        if is_valid_utf8 kp.1 then
          match skipWs kp.2 with
          | 58 :: r2 =>
            (parseValue fuel r2).bind fun vp =>
              match skipWs vp.2 with
              | 44 :: r4 => (parseMembers fuel (skipWs r4)).map fun q =>
                  ((kp.1, vp.1) :: q.1, q.2)
              | 125 :: r4 => some ([(kp.1, vp.1)], r4)
              | _ => none
          | _ => none
        else none
    | _ => none
end

/-- serde_json::from_slice at the document level: one value, then only
trailing whitespace. -/
def parse_json (bs : List Nat) : Option BJson :=
  match parseValue (bs.length + 1) bs with
  | some (v, rest) => if skipWs rest = [] then some v else none
  | none => none

/-- The ASCII bytes of the field name "page". -/
def keyPage : List Nat := [112, 97, 103, 101]

/-- The ASCII bytes of the field name "per_page". -/
def keyPerPage : List Nat := [112, 101, 114, 95, 112, 97, 103, 101]

/-- The ASCII bytes of the field name "path". -/
def keyPath : List Nat := [112, 97, 116, 104]

/-- RestCursor from src/http/mod.rs: page and per_page are u32 (range
hypotheses where needed), path an optional Rust String given by its UTF-8
bytes.  path is skipped when serializing if None. -/
structure RestCursor where
  page : Nat
  per_page : Nat
  path : Option (List Nat)
deriving Repr, DecidableEq

/-- serde_json::to_vec(&c): the compact rendering, fields in declaration
order, path omitted when None (skip_serializing_if), string content
escaped.  Byte constants: 123/125 braces, 34 quote, 58 colon, 44 comma. -/
def serialize_rest_cursor (c : RestCursor) : List Nat :=
  123 :: 34 :: (keyPage ++ 34 :: 58 ::
    (natToAscii c.page ++ 44 :: 34 :: (keyPerPage ++ 34 :: 58 ::
      (natToAscii c.per_page ++
        (match c.path with
         | none => [125]
         | some p =>
           44 :: 34 :: (keyPath ++ 34 :: 58 :: 34 :: (escape_json p ++ [34, 125])))))))

/-- encode_rest_cursor from src/http/mod.rs lines 820-822. -/
def encode_rest_cursor (c : RestCursor) : List Nat :=
  b64_encode (serialize_rest_cursor c)

/-- The derived serde Deserialize for RestCursor, walking the members of
the parsed object: page and per_page must each appear exactly once as a
u32-range integer, path at most once as a string or null, unknown fields
are ignored (serde's default), duplicates are errors. -/
def cursor_fold : List (List Nat × BJson) → Option Nat → Option Nat → Bool →
    Option (List Nat) → Option RestCursor
  | [], pageO, ppO, _, pathV =>
    match pageO, ppO with
    | some p, some pp => some ⟨p, pp, pathV⟩
    | _, _ => none
  | (k, v) :: rest, pageO, ppO, pathSeen, pathV =>
    if k = keyPage then
      match pageO, v with
      | none, .num n =>
        if 0 ≤ n ∧ n < 4294967296 then cursor_fold rest (some n.toNat) ppO pathSeen pathV
        else none
      | _, _ => none
    else if k = keyPerPage then
      match ppO, v with
      | none, .num n =>
        if 0 ≤ n ∧ n < 4294967296 then cursor_fold rest pageO (some n.toNat) pathSeen pathV
        else none
      | _, _ => none
    else if k = keyPath then
      if pathSeen then none
      else
        match v with
        | .str s => cursor_fold rest pageO ppO true (some s)
        | .null => cursor_fold rest pageO ppO true none
        | _ => none
    else cursor_fold rest pageO ppO pathSeen pathV

/-- Extract a RestCursor from a parsed JSON value (must be an object). -/
def cursor_from_json : BJson → Option RestCursor
  | .obj fields => cursor_fold fields none none false none
  | _ => none

/-- decode_rest_cursor from src/http/mod.rs lines 824-829: base64-decode,
then deserialize; any failure yields none. -/
def decode_rest_cursor (token : List Nat) : Option RestCursor :=
  (b64_decode token).bind fun bytes =>
    (parse_json bytes).bind cursor_from_json

/-- parse_page_cursor from src/server.rs lines 462-473: a decodable
incoming cursor wins; otherwise fall back to the caller-supplied page
(default 1) and per_page (default 30, clamped to 100). -/
def parse_page_cursor (cursor : Option (List Nat)) (page : Option Nat)
    (per_page : Option Nat) : Nat × Nat × Option (List Nat) :=
  match cursor with
  | some c =>
    match decode_rest_cursor c with
    | some d => (d.page, d.per_page, some c)
    | none => (page.getD 1, min (per_page.getD 30) 100, none)
  | none => (page.getD 1, min (per_page.getD 30) 100, none)

/-- URL-safe base64 alphabet membership (A-Z a-z 0-9 - _). -/
def is_url_safe_b64_byte (b : Nat) : Bool :=
  (65 ≤ b && b ≤ 90) || (97 ≤ b && b ≤ 122) || (48 ≤ b && b ≤ 57) || b == 45 || b == 95

/-- The byte after a rendered integer must not extend the number token:
not a digit, dot, or exponent marker. -/
def num_boundary : List Nat → Bool
  | [] => true
  | b :: _ => !(isDigitByte b || b == 46 || b == 101 || b == 69)

/-- The member list of the parsed JSON object of a serialized cursor. -/
def cursor_fields (c : RestCursor) : List (List Nat × BJson) :=
  (keyPage, BJson.num (c.page : Int)) ::
    (keyPerPage, BJson.num (c.per_page : Int)) ::
      (match c.path with
       | none => []
       | some p => [(keyPath, BJson.str p)])

/- ## The server layer (src/mcp.rs, src/server.rs, src/tools.rs)

serde_json::Value is modeled as JValue; objects are association lists of
String keys in insertion order (serde_json's map type cannot hold
duplicate keys, and no statement below depends on key order). Integers
model the JSON numbers that occur in this layer. The thread-local
INCLUDE_RATE flag of mcp.rs is modeled as an explicit include_rate
argument, set by handle_tools_call from the _include_rate argument and
passed to mcp_wrap, exactly as IncludeRateGuard scopes it around one
tools/call. -/

inductive JValue where
  | null
  | bool (b : Bool)
  | num (n : Int)
  | str (s : String)
  | arr (elems : List JValue)
  | obj (fields : List (String × JValue))

/-- Map::get on a serde_json object. -/
def objGet (fs : List (String × JValue)) (k : String) : Option JValue :=
  (fs.find? (fun kv => kv.1 == k)).map (fun kv => kv.2)

/-- Map::remove on a serde_json object (key order preserved). -/
def objRemove (fs : List (String × JValue)) (k : String) : List (String × JValue) :=
  fs.filter (fun kv => kv.1 != k)

/-- Replacing the value stored under an existing key. -/
def objSet (fs : List (String × JValue)) (k : String) (v : JValue) : List (String × JValue) :=
  fs.map (fun kv => if kv.1 == k then (k, v) else kv)

/-- Lowercase hex digit, as serde_json's serializer writes \u00XX escapes. -/
def hexDigitChar (n : Nat) : Char :=
  if n < 10 then Char.ofNat (48 + n) else Char.ofNat (87 + n)

/-- serde_json's escaping of one character inside a JSON string literal. -/
def escape_json_char (c : Char) : String :=
  if c = Char.ofNat 34 then String.mk [Char.ofNat 92, Char.ofNat 34]
  else if c = Char.ofNat 92 then String.mk [Char.ofNat 92, Char.ofNat 92]
  else if c.toNat = 8 then String.mk [Char.ofNat 92, Char.ofNat 98]
  else if c.toNat = 9 then String.mk [Char.ofNat 92, Char.ofNat 116]
  else if c.toNat = 10 then String.mk [Char.ofNat 92, Char.ofNat 110]
  else if c.toNat = 12 then String.mk [Char.ofNat 92, Char.ofNat 102]
  else if c.toNat = 13 then String.mk [Char.ofNat 92, Char.ofNat 114]
  else if c.toNat < 32 then
    String.mk [Char.ofNat 92, Char.ofNat 117, Char.ofNat 48, Char.ofNat 48,
      hexDigitChar (c.toNat / 16), hexDigitChar (c.toNat % 16)]
  else String.singleton c

/-- A JSON string literal: quote, escaped characters, quote. -/
def jsonStringLit (s : String) : String :=
  String.mk [Char.ofNat 34] ++ String.join (s.data.map escape_json_char) ++ String.mk [Char.ofNat 34]

mutual

/-- serde_json::to_string: compact serialization of a Value. -/
def jser : JValue → String
  | JValue.null => "null"
  | JValue.bool true => "true"
  | JValue.bool false => "false"
  | JValue.num n => toString n
  | JValue.str s => jsonStringLit s
  | JValue.arr xs => "[" ++ jserArr xs ++ "]"
  | JValue.obj fs => "\x7b" ++ jserObj fs ++ "\x7d"

/-- Comma-separated serialization of array elements. -/
def jserArr : List JValue → String
  | [] => ""
  | [x] => jser x
  | x :: y :: xs => jser x ++ "," ++ jserArr (y :: xs)

/-- Comma-separated serialization of object members. -/
def jserObj : List (String × JValue) → String
  | [] => ""
  | [(k, v)] => jsonStringLit k ++ ":" ++ jser v
  | (k, v) :: f :: fs => jsonStringLit k ++ ":" ++ jser v ++ "," ++ jserObj (f :: fs)

end

/-- The untagged JSON-RPC id enum of server.rs (Str, Num with i64 payload,
Null). -/
inductive RpcId where
  | str (s : String)
  | num (n : Int)
  | null
deriving Repr, DecidableEq

/-- The RpcError struct of server.rs. -/
structure RpcError where
  code : Int
  message : String
  data : Option JValue

/-- The Response struct of server.rs: result and error are each skipped
when none, so exactly one of them is written for every response the
server builds. -/
structure Response where
  jsonrpc : String
  result : Option JValue
  error : Option RpcError
  id : Option RpcId

/-- server.rs rpc_error. -/
def rpc_error (id : Option RpcId) (code : Int) (message : String) (data : Option JValue) : Response :=
  ⟨"2.0", none, some ⟨code, message, data⟩, id⟩

/-- server.rs rpc_ok. -/
def rpc_ok (id : Option RpcId) (result : JValue) : Response :=
  ⟨"2.0", some result, none, id⟩

/-- mcp.rs prune_meta: read has_more via as_bool (default false); when it
is false drop has_more and next_cursor; when include_rate is off drop
rate; drop meta entirely when the pruned object is empty. -/
def prune_meta (structured : JValue) (include_rate : Bool) : JValue :=
  match structured with
  | JValue.obj fs =>
    match objGet fs "meta" with
    | some (JValue.obj metaFs) =>
      let has_more := match objGet metaFs "has_more" with
        | some (JValue.bool b) => b
        | _ => false
      let m1 := if has_more then metaFs
        else objRemove (objRemove metaFs "has_more") "next_cursor"
      let m2 := if include_rate then m1 else objRemove m1 "rate"
      if m2.isEmpty then JValue.obj (objRemove fs "meta")
      else JValue.obj (objSet fs "meta" (JValue.obj m2))
    | _ => structured
  | _ => structured

/-- mcp.rs mcp_wrap: prune the structured value, wrap it with a single
text content block (the given text, or the serialized structured value),
and insert isError only when true. -/
def mcp_wrap (structured0 : JValue) (text_opt : Option String) (is_error : Bool)
    (include_rate : Bool) : JValue :=
  let structured := prune_meta structured0 include_rate
  let text := match text_opt with
    | some s => s
    | none => jser structured
  let base := JValue.obj
    [("content", JValue.arr [JValue.obj [("type", JValue.str "text"), ("text", JValue.str text)]]),
     ("structuredContent", structured)]
  if is_error then
    match base with
    | JValue.obj fs => JValue.obj (fs ++ [("isError", JValue.bool true)])
    | v => v
  else base

/-- The structuredContent member of a wrapped tools/call result. -/
def wrapStructured (w : JValue) : Option JValue :=
  match w with
  | JValue.obj fs => objGet fs "structuredContent"
  | _ => none

/-- The meta member of the structuredContent of a wrapped result. -/
def structured_meta (w : JValue) : Option JValue :=
  match wrapStructured w with
  | some (JValue.obj fs) => objGet fs "meta"
  | _ => none

/-- The isError member of a wrapped tools/call result. -/
def wrapIsError (w : JValue) : Option JValue :=
  match w with
  | JValue.obj fs => objGet fs "isError"
  | _ => none

/-- The error member of the structuredContent of a wrapped result. -/
def structured_error (w : JValue) : Option JValue :=
  match wrapStructured w with
  | some (JValue.obj fs) => objGet fs "error"
  | _ => none

/-- tools.rs ErrorShape. -/
structure ErrorShape where
  code : String
  message : String
  retriable : Bool
deriving Repr, DecidableEq

/-- tools.rs Meta: none of its fields carries a skip attribute, so a
serialized Meta always writes all three keys (None as JSON null); the
pruning happens later in prune_meta. -/
structure Meta where
  next_cursor : Option String
  has_more : Bool
  rate : Option RateMeta
deriving Repr, DecidableEq

/-- tools.rs WorkflowItem. -/
structure WorkflowItem where
  id : Int
  name : String
  path : String
  state : String
deriving Repr, DecidableEq

/-- tools.rs ListWorkflowsOutput: error is skipped when none. -/
structure ListWorkflowsOutput where
  items : Option (List WorkflowItem)
  meta : Meta
  error : Option ErrorShape

/-- serde serialization of an optional string (None becomes null). -/
def jsonOptStr : Option String → JValue
  | some s => JValue.str s
  | none => JValue.null

/-- serde serialization of an optional integer (None becomes null). -/
def jsonOptNum : Option Int → JValue
  | some n => JValue.num n
  | none => JValue.null

/-- serde serialization of types.rs RateMeta (no skip attributes). -/
def rate_to_json (r : RateMeta) : JValue :=
  JValue.obj [("remaining", jsonOptNum r.remaining), ("used", jsonOptNum r.used),
    ("reset_at", jsonOptStr r.reset_at)]

/-- serde serialization of an optional RateMeta (None becomes null). -/
def jsonOptRate : Option RateMeta → JValue
  | some r => rate_to_json r
  | none => JValue.null

/-- serde serialization of tools.rs Meta, fields in declaration order. -/
def meta_to_json (m : Meta) : JValue :=
  JValue.obj [("next_cursor", jsonOptStr m.next_cursor),
    ("has_more", JValue.bool m.has_more),
    ("rate", jsonOptRate m.rate)]

/-- serde serialization of tools.rs ErrorShape. -/
def error_shape_to_json (e : ErrorShape) : JValue :=
  JValue.obj [("code", JValue.str e.code), ("message", JValue.str e.message),
    ("retriable", JValue.bool e.retriable)]

/-- serde serialization of tools.rs WorkflowItem. -/
def workflow_item_to_json (w : WorkflowItem) : JValue :=
  JValue.obj [("id", JValue.num w.id), ("name", JValue.str w.name),
    ("path", JValue.str w.path), ("state", JValue.str w.state)]

/-- serde serialization of ListWorkflowsOutput: items, meta, then error
only when present (skip_serializing_if on error). -/
def list_workflows_output_to_json (o : ListWorkflowsOutput) : JValue :=
  JValue.obj
    ([("items", match o.items with
        | some xs => JValue.arr (xs.map workflow_item_to_json)
        | none => JValue.null),
      ("meta", meta_to_json o.meta)] ++
     (match o.error with
      | some e => [("error", error_shape_to_json e)]
      | none => []))

/-- Bytes of a URL-safe base64 token read back as a Rust String (every
byte of such a token is ASCII). -/
def asciiToString (bs : List Nat) : String :=
  String.mk (bs.map (fun b => Char.ofNat b))

/-- The Meta value built by handle_list_workflows (server.rs:556-576):
has_more comes from the Link header, next_cursor is the encoded cursor
for page + 1 exactly when has_more is true, and rate is passed through. -/
def workflows_meta (page per_page : Nat) (has_more : Bool) (rate : Option RateMeta) : Meta :=
  { next_cursor := if has_more then
      some (asciiToString (encode_rest_cursor ⟨page + 1, per_page, none⟩))
    else none,
    has_more := has_more,
    rate := rate }

/-- tools.rs ListIssuesOutputItem (author_login is skipped when none). -/
structure ListIssuesOutputItem where
  id : String
  number : Int
  title : String
  state : String
  created_at : String
  updated_at : String
  author_login : Option String

/-- tools.rs ListIssuesOutput: error is skipped when none. -/
structure ListIssuesOutput where
  items : Option (List ListIssuesOutputItem)
  meta : Meta
  error : Option ErrorShape

/-- serde serialization of ListIssuesOutputItem. -/
def issue_item_to_json (it : ListIssuesOutputItem) : JValue :=
  JValue.obj
    ([("id", JValue.str it.id), ("number", JValue.num it.number),
      ("title", JValue.str it.title), ("state", JValue.str it.state),
      ("created_at", JValue.str it.created_at), ("updated_at", JValue.str it.updated_at)] ++
     (match it.author_login with
      | some a => [("author_login", JValue.str a)]
      | none => []))

/-- serde serialization of ListIssuesOutput. -/
def list_issues_output_to_json (o : ListIssuesOutput) : JValue :=
  JValue.obj
    ([("items", match o.items with
        | some xs => JValue.arr (xs.map issue_item_to_json)
        | none => JValue.null),
      ("meta", meta_to_json o.meta)] ++
     (match o.error with
      | some e => [("error", error_shape_to_json e)]
      | none => []))

/-- tools.rs ListIssuesInput (all fields after owner and repo optional;
limit is u32). -/
structure ListIssuesInput where
  owner : String
  repo : String
  state : Option String
  labels : Option (List String)
  creator : Option String
  assignee : Option String
  mentions : Option String
  since : Option String
  sort : Option String
  direction : Option String
  cursor : Option String
  limit : Option Nat
  include_author : Option Bool

/-- serde: a JSON value read as a String. -/
def jStr : JValue → Option String
  | JValue.str s => some s
  | _ => none

/-- serde: a JSON value read as a bool. -/
def jBool : JValue → Option Bool
  | JValue.bool b => some b
  | _ => none

/-- serde: a JSON value read as a u32 (integer in range). -/
def jU32 : JValue → Option Nat
  | JValue.num n => if 0 ≤ n ∧ n < 4294967296 then some n.toNat else none
  | _ => none

/-- serde: a JSON value read as a Vec of Strings. -/
def jStrList : JValue → Option (List String)
  | JValue.arr xs => xs.mapM jStr
  | _ => none

/-- serde decoding of an Option field: missing or JSON null is None, any
other value must decode; unknown sibling fields are ignored by serde. -/
def optField {α : Type} (fs : List (String × JValue)) (k : String)
    (p : JValue → Option α) : Option (Option α) :=
  match objGet fs k with
  | none => some none
  | some JValue.null => some none
  | some v => (p v).map some

/-- serde decoding of a required field: missing is an error. -/
def reqField {α : Type} (fs : List (String × JValue)) (k : String)
    (p : JValue → Option α) : Option α :=
  (objGet fs k).bind p

/-- serde_json::from_value for ListIssuesInput. -/
def list_issues_input_from_json (v : JValue) : Option ListIssuesInput :=
  match v with
  | JValue.obj fs =>
    (reqField fs "owner" jStr).bind fun owner =>
    (reqField fs "repo" jStr).bind fun repo =>
    (optField fs "state" jStr).bind fun state =>
    (optField fs "labels" jStrList).bind fun labels =>
    (optField fs "creator" jStr).bind fun creator =>
    (optField fs "assignee" jStr).bind fun assignee =>
    (optField fs "mentions" jStr).bind fun mentions =>
    (optField fs "since" jStr).bind fun since =>
    (optField fs "sort" jStr).bind fun sort =>
    (optField fs "direction" jStr).bind fun direction =>
    (optField fs "cursor" jStr).bind fun cursor =>
    (optField fs "limit" jU32).bind fun limit =>
    (optField fs "include_author" jBool).bind fun include_author =>
    some ⟨owner, repo, state, labels, creator, assignee, mentions, since,
      sort, direction, cursor, limit, include_author⟩
  | _ => none

/-- server.rs enforce_limit: default 30, reject 0 and values above 100. -/
def enforce_limit (limit : Option Nat) : Except String Nat :=
  let l := limit.getD 30
  if l = 0 ∨ l > 100 then Except.error "limit must be 1..=100"
  else Except.ok l

/-- The GraphQL response shape deserialized by handle_list_issues. -/
structure LIAuthor where
  login : String

/-- One issue node of the ListIssues GraphQL query. -/
structure LINode where
  id : String
  number : Int
  title : String
  state : String
  createdAt : String
  updatedAt : String
  author : Option LIAuthor

/-- pageInfo of the ListIssues GraphQL query. -/
structure LIPageInfo where
  hasNextPage : Bool
  endCursor : Option String

/-- issues of the ListIssues GraphQL query. -/
structure LIIssues where
  nodes : List LINode
  pageInfo : LIPageInfo

/-- repository of the ListIssues GraphQL query. -/
structure LIRepo where
  issues : LIIssues

/-- Top-level data of the ListIssues GraphQL query. -/
structure LIData where
  repository : Option LIRepo

/-- The Meta value used on every list_issues error path. -/
def emptyMeta : Meta := ⟨none, false, none⟩

/-- The body of handle_list_issues after the config check
(server.rs:367-448), as a function of the build_client outcome and the
graphql_post outcome (data, rate, error): a client error or an upstream
error becomes an in-envelope ErrorShape with no items; a missing
repository becomes not_found; otherwise the nodes are mapped to output
items and meta carries endCursor, hasNextPage and the rate. -/
def list_issues_fetch (client : Except String Unit)
    (gql : Option LIData × Option RateMeta × Option ErrorInfo)
    (include_author : Bool) :
    Option (List ListIssuesOutputItem) × Meta × Option ErrorShape :=
  match client with
  | Except.error e => (none, emptyMeta, some ⟨"server_error", e, false⟩)
  | Except.ok _ =>
    match gql with
    | (data, gqlRate, err) =>
      match err with
      | some e => (none, emptyMeta, some ⟨e.code, e.message, e.retriable⟩)
      | none =>
        match data.bind (fun d => d.repository) with
        | none => (none, emptyMeta, some ⟨"not_found", "Repository not found", false⟩)
        | some repo =>
          let items := repo.issues.nodes.map (fun n =>
            ({ id := n.id, number := n.number, title := n.title, state := n.state,
               created_at := n.createdAt, updated_at := n.updatedAt,
               author_login := if include_author then n.author.map (fun a => a.login)
                 else none } : ListIssuesOutputItem))
          (some items, ⟨repo.issues.pageInfo.endCursor, repo.issues.pageInfo.hasNextPage, gqlRate⟩,
            none)

/-- The environment a dispatched request runs against: the ping gating
flag, the crate version string, the Config::from_env outcome, the
build_client outcome, the graphql_post outcome seen by list_issues, and
the remaining tool handlers of the handle_tools_call match, which are
kept abstract. -/
structure ServerDeps where
  ping_enabled : Bool
  version : String
  cfg : Except String Unit
  client : Except String Unit
  gql : Option LIData × Option RateMeta × Option ErrorInfo
  other : String → Bool → Option RpcId → JValue → Response

/-- server.rs handle_list_issues: malformed params and a bad limit are
JSON-RPC -32602, a missing configuration is -32603 (the serde error text
interpolated into the -32602 message is abbreviated to its fixed prefix),
and everything after that — including every upstream failure — is
delivered as rpc_ok of an mcp_wrap envelope. -/
def handle_list_issues (d : ServerDeps) (include_rate : Bool) (id : Option RpcId)
    (params : JValue) : Response :=
  match list_issues_input_from_json params with
  | none => rpc_error id (-32602) "Invalid params" none
  | some input =>
    match enforce_limit input.limit with
    | Except.error _ => rpc_error id (-32602) "Invalid limit (1..=100)" none
    | Except.ok _ =>
      match d.cfg with
      | Except.error e => rpc_error id (-32603) e none
      | Except.ok _ =>
        match list_issues_fetch d.client d.gql (input.include_author.getD false) with
        | (items, meta, err) =>
          let out : ListIssuesOutput := ⟨items, meta, err⟩
          let structured := list_issues_output_to_json out
          let text := out.items.map (fun v => toString v.length ++ " issues")
          let is_error := out.error.isSome
          rpc_ok id (mcp_wrap structured text is_error include_rate)

/-- serde_json::from_value for PingInput (an object with an optional
message field). -/
def ping_input_from_json (v : JValue) : Option (Option String) :=
  match v with
  | JValue.obj fs => optField fs "message" jStr
  | _ => none

/-- server.rs handle_ping: a failed parse falls back to an empty input,
the message defaults to pong, and the reply is always rpc_ok. -/
def handle_ping (include_rate : Bool) (id : Option RpcId) (params : JValue) : Response :=
  let message := (match ping_input_from_json params with
    | some m => m
    | none => none).getD "pong"
  rpc_ok id (mcp_wrap (JValue.obj [("message", JValue.str message)]) (some message) false
    include_rate)

/-- The tool names of the handle_tools_call match other than ping and
list_issues; their handlers are the abstract other field of ServerDeps. -/
def otherTools : List String :=
  ["get_issue", "list_issue_comments_plain", "list_pull_requests", "get_pull_request",
   "get_pr_status_summary", "list_pr_comments_plain", "list_pr_review_comments_plain",
   "list_pr_review_comments", "list_pr_review_threads_light", "resolve_pr_review_thread",
   "unresolve_pr_review_thread", "list_pr_reviews_light", "list_pr_reviews",
   "list_pr_commits_light", "list_pr_commits", "list_pr_files_light", "list_pr_files",
   "get_pr_diff", "get_pr_patch", "pr_summary", "list_workflows_light",
   "list_workflow_runs_light", "get_workflow_run_light", "list_workflow_jobs_light",
   "get_workflow_job_logs", "rerun_workflow_run", "rerun_workflow_run_failed",
   "cancel_workflow_run", "list_repo_secrets_light", "list_repo_variables_light",
   "list_environments_light", "list_environment_variables_light", "list_commits",
   "get_commit", "list_tags", "get_tag", "list_branches", "list_releases", "get_release",
   "list_starred_repositories", "merge_pr", "search_issues", "search_pull_requests",
   "search_repositories", "update_issue", "update_pull_request", "fork_repository"]

/-- server.rs handle_tools_list (descriptors reduced to their names; the
reply is rpc_ok either way): ping is filtered out unless enabled. -/
def handle_tools_list (d : ServerDeps) (id : Option RpcId) : Response :=
  let names := "ping" :: "list_issues" :: otherTools
  let tools := if d.ping_enabled then names else names.filter (fun n => n != "ping")
  rpc_ok id (JValue.obj
    [("tools", JValue.arr (tools.map (fun n => JValue.obj [("name", JValue.str n)])))])

/-- serde_json::from_value for ToolCallParams: a required name and
arguments defaulting to null. -/
def tool_call_params_from_json (v : JValue) : Option (String × JValue) :=
  match v with
  | JValue.obj fs =>
    (reqField fs "name" jStr).bind fun name =>
    some (name, (objGet fs "arguments").getD JValue.null)
  | _ => none

/-- server.rs handle_tools_call: parse params (-32602 on failure), read
and strip the reserved _include_rate flag, gate ping (-32601 when
disabled), route list_issues, route the other known tools, and answer
-32601 for an unknown tool name. -/
def handle_tools_call (d : ServerDeps) (id : Option RpcId) (params : JValue) : Response :=
  match tool_call_params_from_json params with
  | none => rpc_error id (-32602) "Invalid params" none
  | some (name, arguments) =>
    let include_rate := match arguments with
      | JValue.obj fs =>
        (match objGet fs "_include_rate" with
         | some (JValue.bool b) => b
         | _ => false)
      | _ => false
    let args := match arguments with
      | JValue.obj fs => JValue.obj (objRemove fs "_include_rate")
      | v => v
    if name = "ping" then
      if !d.ping_enabled then rpc_error id (-32601) "Tool not found: ping (disabled)" none
      else handle_ping include_rate id args
    else if name = "list_issues" then handle_list_issues d include_rate id args
    else if otherTools.contains name then d.other name include_rate id args
    else rpc_error id (-32601) ("Tool not found: " ++ name) none

/-- server.rs handle_initialize: always rpc_ok with the protocol and
server info (the crate version string comes from the build). -/
def handleInit (d : ServerDeps) (id : Option RpcId) : Response :=
  rpc_ok id (JValue.obj
    [("protocolVersion", JValue.str "2024-11-05"),
     ("serverInfo", JValue.obj
       [("name", JValue.str "github-mcp"), ("version", JValue.str d.version)]),
     ("capabilities", JValue.obj
       [("tools", JValue.obj [("listChanged", JValue.bool false)])])])

/-- The Request struct of server.rs: jsonrpc and method required, params
defaulted to null, id an Option of the untagged Id. -/
structure RpcRequest where
  jsonrpc : String
  method : String
  params : JValue
  id : Option RpcId

/-- serde deserialization of the untagged Id enum (the Null arm is listed
for completeness: under Option, JSON null is taken by the Option layer
first, so a decoded request never holds RpcId.null). -/
def rpc_id_from_json (v : JValue) : Option RpcId :=
  match v with
  | JValue.str s => some (RpcId.str s)
  | JValue.num n =>
    if -9223372036854775808 ≤ n ∧ n ≤ 9223372036854775807 then some (RpcId.num n) else none
  | JValue.null => some RpcId.null
  | _ => none

/-- serde_json deserialization of the Request struct: a JSON null id and
an absent id both decode to none. -/
def decodeRequest (v : JValue) : Option RpcRequest :=
  match v with
  | JValue.obj fs =>
    (reqField fs "jsonrpc" jStr).bind fun jsonrpc =>
    (reqField fs "method" jStr).bind fun method =>
    (optField fs "id" rpc_id_from_json).bind fun id =>
    some ⟨jsonrpc, method, (objGet fs "params").getD JValue.null, id⟩
  | _ => none

/-- server.rs dispatch. -/
def dispatch (d : ServerDeps) (req : RpcRequest) : Response :=
  if req.method = "initialize" then handleInit d req.id
  else if req.method = "tools/list" then handle_tools_list d req.id
  else if req.method = "tools/call" then handle_tools_call d req.id req.params
  else rpc_error req.id (-32601) ("Method not found: " ++ req.method) none

/-- One iteration of the run_stdio_server loop (server.rs:152-176) for a
non-empty line, taking the serde_json parse outcome of the line: a parse
failure is answered with -32700 and a null id; a request with no id is a
notification and produces no response at all; otherwise the request is
dispatched. -/
def process_line (d : ServerDeps) (line : Option JValue) : Option Response :=
  match line with
  | none => some (rpc_error none (-32700) "Parse error" none)
  | some v =>
    match decodeRequest v with
    | none => some (rpc_error none (-32700) "Parse error" none)
    | some req =>
      match req.id with
      | none => none
      | some _ => some (dispatch d req)

/-- A concrete ServerDeps for witnesses: ping enabled, config and client
fine, the upstream GraphQL call failing with a retriable upstream_error,
and every abstract handler answering rpc_ok null. -/
def sampleDeps : ServerDeps :=
  ⟨true, "0.1.0", Except.ok (), Except.ok (),
   (none, none, some ⟨"upstream_error", "boom", true⟩),
   fun _ _ id _ => rpc_ok id JValue.null⟩

/- ## Theorems

The statements below are about the definitions above; helper lemmas are
interleaved with the claim theorems that use them, in dependency order. -/

/- ## C1 and C7 theorems -/

/-- C1: map_status_to_error returns exactly the pair of the spec table:
400 ↦ bad_request/false, 401 ↦ unauthorized/false, 403 ↦ forbidden/false,
404 ↦ not_found/false, 409 ↦ conflict/false, 429 ↦ rate_limited/true,
5xx ↦ upstream_error/true, any other status ↦ server_error/false (which
covers in particular every other non-2xx status); the code/retriable pair
is determined by the status alone. -/
theorem map_status_to_error_matches_table :
    (∀ msg, map_status_to_error 400 msg = ⟨"bad_request", msg, false⟩) ∧
    (∀ msg, map_status_to_error 401 msg = ⟨"unauthorized", msg, false⟩) ∧
    (∀ msg, map_status_to_error 403 msg = ⟨"forbidden", msg, false⟩) ∧
    (∀ msg, map_status_to_error 404 msg = ⟨"not_found", msg, false⟩) ∧
    (∀ msg, map_status_to_error 409 msg = ⟨"conflict", msg, false⟩) ∧
    (∀ msg, map_status_to_error 429 msg = ⟨"rate_limited", msg, true⟩) ∧
    (∀ s msg, 500 ≤ s → s < 600 →
      map_status_to_error s msg = ⟨"upstream_error", msg, true⟩) ∧
    (∀ s msg, s ∉ ([400, 401, 403, 404, 409, 429] : List Nat) → ¬(500 ≤ s ∧ s < 600) →
      map_status_to_error s msg = ⟨"server_error", msg, false⟩) ∧
    (∀ s m m', (map_status_to_error s m).code = (map_status_to_error s m').code ∧
      (map_status_to_error s m).retriable = (map_status_to_error s m').retriable) := by
  refine ⟨fun msg => rfl, fun msg => rfl, fun msg => rfl, fun msg => rfl, fun msg => rfl,
    fun msg => rfl, ?_, ?_, ?_⟩
  · intro s msg h5 h6
    have h1 : s ≠ 400 := by omega
    have h2 : s ≠ 401 := by omega
    have h3 : s ≠ 403 := by omega
    have h4 : s ≠ 404 := by omega
    have h9 : s ≠ 409 := by omega
    have hr : s ≠ 429 := by omega
    have hs : is_server_error_status s = true := by
      simp [is_server_error_status]; omega
    simp [map_status_to_error, h1, h2, h3, h4, h9, hr, hs]
  · intro s msg hmem hrange
    simp only [List.mem_cons, List.not_mem_nil, or_false] at hmem
    push_neg at hmem
    obtain ⟨h1, h2, h3, h4, h9, hr⟩ := hmem
    have hs : is_server_error_status s = false := by
      simp [is_server_error_status]; omega
    simp [map_status_to_error, h1, h2, h3, h4, h9, hr, hs]
  · intro s m m'
    constructor <;> simp [map_status_to_error]

/-- Witness for C1 at concrete statuses 503 and 418. -/
theorem map_status_to_error_matches_table_witness :
    map_status_to_error 503 "m" = ⟨"upstream_error", "m", true⟩ ∧
    map_status_to_error 418 "m" = ⟨"server_error", "m", false⟩ :=
  ⟨map_status_to_error_matches_table.2.2.2.2.2.2.1 503 "m" (by decide) (by decide),
   map_status_to_error_matches_table.2.2.2.2.2.2.2.1 418 "m" (by decide) (by decide)⟩

/-- The capped basis is monotone in the attempt number. -/
theorem capped_backoff_monotone {a b : Nat} (h : a ≤ b) :
    capped_backoff a ≤ capped_backoff b := by
  have hpow : 2 ^ (min a 5) ≤ 2 ^ (min b 5) :=
    Nat.pow_le_pow_right (by norm_num) (by omega)
  have : backoff_base a ≤ backoff_base b := by
    unfold backoff_base
    exact min_le_min (by omega) le_rfl
  unfold capped_backoff
  exact min_le_min le_rfl this

/-- C7: without Retry-After, the computed backoff always lies in
[capped/2, capped] where capped = min(5000, 200·2^min(attempt,5)), hence
never exceeds 5000 ms; and the expected backoff is monotonically
non-decreasing in the attempt number. -/
theorem compute_backoff_shape :
    (∀ a j, j ≤ capped_backoff a / 2 →
      capped_backoff a / 2 ≤ compute_backoff a none j ∧
      compute_backoff a none j ≤ capped_backoff a ∧
      compute_backoff a none j ≤ 5000) ∧
    (∀ a b, a ≤ b → expected_backoff a ≤ expected_backoff b) := by
  constructor
  · intro a j hj
    have hcap : capped_backoff a ≤ 5000 := by
      unfold capped_backoff; omega
    refine ⟨?_, ?_, ?_⟩
    · simp [compute_backoff]
    · simp only [compute_backoff]; omega
    · simp only [compute_backoff]; omega
  · intro a b hab
    have h := capped_backoff_monotone hab
    have hdiv : capped_backoff a / 2 ≤ capped_backoff b / 2 := Nat.div_le_div_right h
    unfold expected_backoff
    have hq : ((capped_backoff a / 2 : Nat) : ℚ) ≤ ((capped_backoff b / 2 : Nat) : ℚ) := by
      exact_mod_cast hdiv
    have hq2 : ((capped_backoff a / 2 : Nat) : ℚ) / 2 ≤ ((capped_backoff b / 2 : Nat) : ℚ) / 2 := by
      linarith
    linarith

/-- Witness for C7 at attempt 3, jitter 100, and the pair 2 ≤ 4. -/
theorem compute_backoff_shape_witness :
    (capped_backoff 3 / 2 ≤ compute_backoff 3 none 100 ∧
      compute_backoff 3 none 100 ≤ capped_backoff 3 ∧
      compute_backoff 3 none 100 ≤ 5000) ∧
    expected_backoff 2 ≤ expected_backoff 4 :=
  ⟨compute_backoff_shape.1 3 100 (by decide), compute_backoff_shape.2 2 4 (by decide)⟩

/-- A retriable status (429 or 5xx) is never a success status. -/
theorem retriable_not_success {s : Nat}
    (h : s = 429 ∨ is_server_error_status s = true) : is_success_status s = false := by
  rcases h with h | h
  · subst h; decide
  · simp only [is_server_error_status, Bool.and_eq_true, decide_eq_true_eq] at h
    simp only [is_success_status, Bool.and_eq_true, decide_eq_true_eq]
    simp only [Bool.and_eq_false_iff, decide_eq_false_iff_not]
    omega

/-- When every attempt yields the same retriable status, the GET loop
entered at attempt a = 5 - k performs exactly k + 1 further attempts and
ends with the terminal classification of the last attempt's body. -/
theorem rest_get_json_from_exhausts {α : Type} (s : Nat) (ra : Nat → Option Nat)
    (rt : Nat → RateMeta) (dc : Nat → Except String α) (bd : Nat → String) (j : Nat → Nat)
    (hs : s = 429 ∨ is_server_error_status s = true) :
    ∀ k a, a + k = 5 →
      (rest_get_json_from (fun n => SendResult.response s (ra n) (rt n) (dc n) (bd n)) j
        a).attemptsMade = k + 1 ∧
      (rest_get_json_from (fun n => SendResult.response s (ra n) (rt n) (dc n) (bd n)) j
        a).resp = ⟨none, some (rt 5), some (map_status_to_error s (bd 5)), s, true⟩ := by
  intro k
  induction k with
  | zero =>
    intro a ha
    have h5 : a = 5 := by omega
    subst h5
    rw [rest_get_json_from]
    simp only [retriable_not_success hs, Bool.false_eq_true, if_false]
    rw [dif_neg (by omega)]
    exact ⟨rfl, rfl⟩
  | succ k ih =>
    intro a ha
    have hlt : a < 5 := by omega
    rw [rest_get_json_from]
    simp only [retriable_not_success hs, Bool.false_eq_true, if_false]
    rw [dif_pos ⟨hs, hlt⟩]
    obtain ⟨h1, h2⟩ := ih (a + 1) (by omega)
    exact ⟨by simpa using h1, by simpa using h2⟩

/-- C2: against an upstream returning the same retriable status (429 or
5xx) on every attempt, rest_get_json makes exactly 6 attempts (1 initial +
5 retries) and then returns a terminal error classified from that status —
rate_limited for 429, upstream_error for 5xx — with no payload; and an
upstream whose first response has any other non-2xx status is terminal
with a single attempt (zero retries). -/
theorem rest_retry_bound :
    (∀ (α : Type) (s : Nat) (ra : Nat → Option Nat) (rt : Nat → RateMeta)
      (dc : Nat → Except String α) (bd : Nat → String) (j : Nat → Nat),
      s = 429 ∨ is_server_error_status s = true →
      (rest_get_json (fun n => SendResult.response s (ra n) (rt n) (dc n) (bd n))
        j).attemptsMade = 6 ∧
      (rest_get_json (fun n => SendResult.response s (ra n) (rt n) (dc n) (bd n))
        j).resp.value = none ∧
      (rest_get_json (fun n => SendResult.response s (ra n) (rt n) (dc n) (bd n))
        j).resp.error = some (map_status_to_error s (bd 5)) ∧
      (map_status_to_error s (bd 5)).code =
        (if s = 429 then "rate_limited" else "upstream_error") ∧
      (map_status_to_error s (bd 5)).retriable = true) ∧
    (∀ (α : Type) (u : Nat → SendResult α) (j : Nat → Nat) (s : Nat)
      (raV : Option Nat) (rtV : RateMeta) (dcV : Except String α) (bdV : String),
      u 0 = SendResult.response s raV rtV dcV bdV →
      is_success_status s = false →
      ¬(s = 429 ∨ is_server_error_status s = true) →
      rest_get_json u j =
        ⟨⟨none, some rtV, some (map_status_to_error s bdV), s, true⟩, 1, []⟩) := by
  constructor
  · intro α s ra rt dc bd j hs
    obtain ⟨h1, h2⟩ := rest_get_json_from_exhausts s ra rt dc bd j hs 5 0 (by omega)
    refine ⟨h1, ?_, ?_, ?_, ?_⟩
    · rw [rest_get_json, h2]
    · rw [rest_get_json, h2]
    · rcases hs with h | h
      · subst h; rfl
      · simp only [is_server_error_status, Bool.and_eq_true, decide_eq_true_eq] at h
        have h1 : s ≠ 400 := by omega
        have h2 : s ≠ 401 := by omega
        have h3 : s ≠ 403 := by omega
        have h4 : s ≠ 404 := by omega
        have h9 : s ≠ 409 := by omega
        have hr : s ≠ 429 := by omega
        have hse : is_server_error_status s = true := by
          simp [is_server_error_status]; omega
        simp [map_status_to_error, h1, h2, h3, h4, h9, hr, hse]
    · rcases hs with h | h
      · subst h; rfl
      · simp only [is_server_error_status, Bool.and_eq_true, decide_eq_true_eq] at h
        have h1 : s ≠ 400 := by omega
        have h2 : s ≠ 401 := by omega
        have h3 : s ≠ 403 := by omega
        have h4 : s ≠ 404 := by omega
        have h9 : s ≠ 409 := by omega
        have hr : s ≠ 429 := by omega
        have hse : is_server_error_status s = true := by
          simp [is_server_error_status]; omega
        simp [map_status_to_error, h1, h2, h3, h4, h9, hr, hse]
  · intro α u j s raV rtV dcV bdV hu hns hnr
    rw [rest_get_json, rest_get_json_from, hu]
    simp only [hns, Bool.false_eq_true, if_false]
    rw [dif_neg (by simp only [not_and]; intro h; exact absurd h hnr)]

/-- Witness for C2: a constant-503 upstream exhausts the budget in 6
attempts, and a 404 first response is terminal in one attempt. -/
theorem rest_retry_bound_witness :
    ((rest_get_json (fun _ => SendResult.response 503 none ⟨none, none, none⟩
        (Except.error "e" : Except String Unit) "b") (fun _ => 0)).attemptsMade = 6 ∧
      (rest_get_json (fun _ => SendResult.response 503 none ⟨none, none, none⟩
        (Except.error "e" : Except String Unit) "b") (fun _ => 0)).resp.value = none ∧
      (rest_get_json (fun _ => SendResult.response 503 none ⟨none, none, none⟩
        (Except.error "e" : Except String Unit) "b") (fun _ => 0)).resp.error =
        some (map_status_to_error 503 "b") ∧
      (map_status_to_error 503 "b").code = (if 503 = 429 then "rate_limited" else "upstream_error") ∧
      (map_status_to_error 503 "b").retriable = true) ∧
    rest_get_json (fun _ => SendResult.response 404 none ⟨none, none, none⟩
        (Except.error "e" : Except String Unit) "nf") (fun _ => 0) =
      ⟨⟨none, some ⟨none, none, none⟩, some (map_status_to_error 404 "nf"), 404, true⟩, 1, []⟩ :=
  ⟨rest_retry_bound.1 Unit 503 (fun _ => none) (fun _ => ⟨none, none, none⟩)
      (fun _ => Except.error "e") (fun _ => "b") (fun _ => 0) (by decide),
   rest_retry_bound.2 Unit (fun _ => SendResult.response 404 none ⟨none, none, none⟩
      (Except.error "e") "nf") (fun _ => 0) 404 none ⟨none, none, none⟩
      (Except.error "e") "nf" rfl (by decide) (by decide)⟩

/- ## C6: Retry-After handling across the REST helpers -/

/-- Counterexample to C6 as stated: rest_post_json, facing a 429 response
that carries Retry-After: 7 (seconds), sleeps the computed backoff of
100 ms (capped/2 + jitter 0) before the next attempt, not the 7000 ms the
claim requires. -/
theorem retry_after_post_counterexample :
    (rest_post_json_from
      (fun _ => SendResult.response 429 (some 7) ⟨none, none, none⟩
        (Except.error "e" : Except String Unit) "b")
      (fun _ => 0) 0).sleeps.head? = some 100 ∧ (100 : Nat) ≠ 7 * 1000 := by
  constructor
  · rw [rest_post_json_from]
    norm_num [is_success_status]
    rfl
  · decide

/-- C6 (amended): when a retry-triggering response (429/5xx, attempt < 5)
carries Retry-After: d seconds, the GET helper waits exactly d seconds
(d*1000 ms) before the next attempt, overriding the exponential backoff;
the POST, PUT and PATCH helpers never read Retry-After and always wait the
computed backoff compute_backoff(attempt, None). -/
theorem retry_after_get_honored_post_put_patch_ignored :
    (∀ (α : Type) (u : Nat → SendResult α) (j : Nat → Nat) (a s d : Nat)
      (rtV : RateMeta) (dcV : Except String α) (bdV : String),
      u a = SendResult.response s (some d) rtV dcV bdV →
      s = 429 ∨ is_server_error_status s = true → a < 5 →
      (rest_get_json_from u j a).sleeps.head? = some (d * 1000)) ∧
    (∀ (α : Type) (u : Nat → SendResult α) (j : Nat → Nat) (a s : Nat)
      (raV : Option Nat) (rtV : RateMeta) (dcV : Except String α) (bdV : String),
      u a = SendResult.response s raV rtV dcV bdV →
      s = 429 ∨ is_server_error_status s = true → a < 5 →
      (rest_post_json_from u j a).sleeps.head? = some (compute_backoff a none (j a)) ∧
      (rest_put_json_from u j a).sleeps.head? = some (compute_backoff a none (j a)) ∧
      (rest_patch_json_from u j a).sleeps.head? = some (compute_backoff a none (j a))) := by
  constructor
  · intro α u j a s d rtV dcV bdV hu hs ha
    rw [rest_get_json_from, hu]
    simp only [retriable_not_success hs, Bool.false_eq_true, if_false]
    rw [dif_pos ⟨hs, ha⟩]
    rfl
  · intro α u j a s raV rtV dcV bdV hu hs ha
    have hns : (is_success_status s || s == 202) = false := by
      have h1 := retriable_not_success hs
      have h2 : s ≠ 202 := by
        rcases hs with h | h
        · omega
        · simp only [is_server_error_status, Bool.and_eq_true, decide_eq_true_eq] at h
          omega
      simp [h1, h2]
    refine ⟨?_, ?_, ?_⟩
    · rw [rest_post_json_from, hu]
      simp only [hns, Bool.false_eq_true, if_false]
      rw [dif_pos ⟨hs, ha⟩]
      rfl
    · rw [rest_put_json_from, hu]
      simp only [retriable_not_success hs, Bool.false_eq_true, if_false]
      rw [dif_pos ⟨hs, ha⟩]
      rfl
    · rw [rest_patch_json_from, hu]
      simp only [retriable_not_success hs, Bool.false_eq_true, if_false]
      rw [dif_pos ⟨hs, ha⟩]
      rfl

/-- Witness for the amended C6 at a concrete 429 + Retry-After: 7 upstream. -/
theorem retry_after_get_honored_post_put_patch_ignored_witness :
    (rest_get_json_from
      (fun _ => SendResult.response 429 (some 7) ⟨none, none, none⟩
        (Except.error "e" : Except String Unit) "b") (fun _ => 0) 0).sleeps.head? =
      some (7 * 1000) ∧
    (rest_post_json_from
      (fun _ => SendResult.response 429 (some 7) ⟨none, none, none⟩
        (Except.error "e" : Except String Unit) "b") (fun _ => 0) 0).sleeps.head? =
      some (compute_backoff 0 none 0) :=
  ⟨retry_after_get_honored_post_put_patch_ignored.1 Unit
      (fun _ => SendResult.response 429 (some 7) ⟨none, none, none⟩ (Except.error "e") "b")
      (fun _ => 0) 0 429 7 ⟨none, none, none⟩ (Except.error "e") "b" rfl (Or.inl rfl)
      (by decide),
   (retry_after_get_honored_post_put_patch_ignored.2 Unit
      (fun _ => SendResult.response 429 (some 7) ⟨none, none, none⟩ (Except.error "e") "b")
      (fun _ => 0) 0 429 (some 7) ⟨none, none, none⟩ (Except.error "e") "b" rfl (Or.inl rfl)
      (by decide)).1⟩

/-- C8: a 2xx GraphQL response whose body carries an errors array is
terminal on the current attempt — one send, no retry, no backoff sleep —
returning upstream_error with retriable = true, the joined error messages,
and neither data nor rate; and more generally, any attempt outcome that is
neither a transport failure nor a 429/5xx status ends the loop on the
current attempt with a single send and no sleep. -/
theorem graphql_errors_terminal :
    (∀ (δ : Type) (u : Nat → GqlSend δ) (j : Nat → Nat) (a s : Nat)
      (data : Option δ) (errs : List String) (rateV : Option RateMeta) (bt : String),
      u a = GqlSend.response s (GqlBody.parsed data (some errs) rateV) bt →
      is_success_status s = true →
      graphql_post_from u j a =
        ⟨none, none, some ⟨"upstream_error", String.intercalate "; " errs, true⟩, 1, []⟩) ∧
    (∀ (δ : Type) (u : Nat → GqlSend δ) (j : Nat → Nat) (a s : Nat)
      (body : GqlBody δ) (bt : String),
      u a = GqlSend.response s body bt →
      ¬(s = 429 ∨ is_server_error_status s = true) →
      (graphql_post_from u j a).attemptsMade = 1 ∧
      (graphql_post_from u j a).sleeps = []) := by
  constructor
  · intro δ u j a s data errs rateV bt hu hs
    rw [graphql_post_from, hu]
    simp [hs]
  · intro δ u j a s body bt hu hnr
    rw [graphql_post_from, hu]
    by_cases hs : is_success_status s = true
    · simp only [hs, if_true]
      cases body with
      | invalidJson msg => exact ⟨rfl, rfl⟩
      | badShape msg => exact ⟨rfl, rfl⟩
      | parsed data errors rate =>
        cases errors with
        | some errs => exact ⟨rfl, rfl⟩
        | none => exact ⟨rfl, rfl⟩
    · simp only [Bool.not_eq_true] at hs
      simp only [hs, Bool.false_eq_true, if_false]
      rw [dif_neg (by simp only [not_and]; intro h; exact absurd h hnr)]
      exact ⟨rfl, rfl⟩

/-- Witness for C8: a concrete 200 response carrying two GraphQL errors. -/
theorem graphql_errors_terminal_witness :
    graphql_post_from
      (fun _ => GqlSend.response 200
        (GqlBody.parsed (some (0 : Nat)) (some ["boom", "bust"]) none) "bt")
      (fun _ => 0) 0 =
      ⟨none, none, some ⟨"upstream_error", String.intercalate "; " ["boom", "bust"], true⟩,
        1, []⟩ ∧
    (graphql_post_from
      (fun _ => GqlSend.response 404 (GqlBody.invalidJson "x" : GqlBody Nat) "nf")
      (fun _ => 0) 0).attemptsMade = 1 :=
  ⟨graphql_errors_terminal.1 Nat
      (fun _ => GqlSend.response 200
        (GqlBody.parsed (some 0) (some ["boom", "bust"]) none) "bt")
      (fun _ => 0) 0 200 (some 0) ["boom", "bust"] none "bt" rfl (by decide),
   (graphql_errors_terminal.2 Nat
      (fun _ => GqlSend.response 404 (GqlBody.invalidJson "x") "nf")
      (fun _ => 0) 0 404 (GqlBody.invalidJson "x") "nf" rfl (by decide)).1⟩

/-- Decoding the alphabet byte of any sextet recovers the sextet. -/
theorem b64_char_decode_alphabet : ∀ s, s < 64 → b64_char_decode (b64_alphabet s) = some s := by
  decide

/-- Alphabet bytes are URL-safe and never the padding byte 61. -/
theorem b64_alphabet_url_safe :
    ∀ s, s < 64 → is_url_safe_b64_byte (b64_alphabet s) = true ∧ b64_alphabet s ≠ 61 := by
  decide

/-- All sextets of a byte list are < 64. -/
theorem b64_sextets_lt :
    ∀ l : List Nat, (∀ b ∈ l, b < 256) → ∀ s ∈ b64_sextets l, s < 64
  | [], _, s, hs => by simp [b64_sextets] at hs
  | [a], h, s, hs => by
    have ha : a < 256 := h a (by simp)
    simp [b64_sextets] at hs
    rcases hs with rfl | rfl <;> omega
  | [a, b], h, s, hs => by
    have ha : a < 256 := h a (by simp)
    have hb : b < 256 := h b (by simp)
    simp [b64_sextets] at hs
    rcases hs with rfl | rfl | rfl <;> omega
  | a :: b :: c :: rest, h, s, hs => by
    have ha : a < 256 := h a (by simp)
    have hb : b < 256 := h b (by simp)
    have hc : c < 256 := h c (by simp)
    have hrest : ∀ x ∈ rest, x < 256 := fun x hx => h x (by simp [hx])
    simp only [b64_sextets, List.mem_cons] at hs
    rcases hs with rfl | rfl | rfl | rfl | hmem
    · omega
    · omega
    · omega
    · omega
    · exact b64_sextets_lt rest hrest s hmem

/-- Mapping the inverse alphabet over alphabet-encoded sextets succeeds. -/
theorem b64_map_decode_alphabet :
    ∀ sx : List Nat, (∀ s ∈ sx, s < 64) →
      b64_map_decode (sx.map b64_alphabet) = some sx := by
  intro sx
  induction sx with
  | nil => intro _; rfl
  | cons s t ih =>
    intro h
    have hs : s < 64 := h s (by simp)
    have ht : ∀ x ∈ t, x < 64 := fun x hx => h x (by simp [hx])
    simp only [List.map_cons, b64_map_decode, b64_char_decode_alphabet s hs, ih ht]
    rfl

/-- Reassembling the sextets of a byte list recovers the bytes. -/
theorem b64_decode_sextets_inverts :
    ∀ l : List Nat, (∀ b ∈ l, b < 256) → b64_decode_sextets (b64_sextets l) = some l
  | [], _ => rfl
  | [a], h => by
    have ha : a < 256 := h a (by simp)
    simp only [b64_sextets, b64_decode_sextets]
    rw [if_pos (by omega)]
    have h1 : a / 4 * 4 + a % 4 * 16 / 16 = a := by omega
    rw [h1]
  | [a, b], h => by
    have ha : a < 256 := h a (by simp)
    have hb : b < 256 := h b (by simp)
    simp only [b64_sextets, b64_decode_sextets]
    rw [if_pos (by omega)]
    have h1 : a / 4 * 4 + (a % 4 * 16 + b / 16) / 16 = a := by omega
    have h2 : (a % 4 * 16 + b / 16) % 16 * 16 + b % 16 * 4 / 4 = b := by omega
    rw [h1, h2]
  | a :: b :: c :: rest, h => by
    have ha : a < 256 := h a (by simp)
    have hb : b < 256 := h b (by simp)
    have hc : c < 256 := h c (by simp)
    have hrest : ∀ x ∈ rest, x < 256 := fun x hx => h x (by simp [hx])
    have ih := b64_decode_sextets_inverts rest hrest
    simp only [b64_sextets, b64_decode_sextets, ih]
    have h1 : a / 4 * 4 + (a % 4 * 16 + b / 16) / 16 = a := by omega
    have h2 : (a % 4 * 16 + b / 16) % 16 * 16 + (b % 16 * 4 + c / 64) / 4 = b := by omega
    have h3 : (b % 16 * 4 + c / 64) % 4 * 64 + c % 64 = c := by omega
    rw [h1, h2, h3]
    rfl

/-- base64 URL_SAFE_NO_PAD round-trip on byte lists. -/
theorem b64_decode_encode (l : List Nat) (h : ∀ b ∈ l, b < 256) :
    b64_decode (b64_encode l) = some l := by
  unfold b64_decode b64_encode
  rw [b64_map_decode_alphabet (b64_sextets l) (b64_sextets_lt l h)]
  simpa using b64_decode_sextets_inverts l h

/-- Unpack a number-boundary hypothesis at a cons. -/
theorem num_boundary_cons {b : Nat} {t : List Nat} (h : num_boundary (b :: t) = true) :
    isDigitByte b = false ∧ b ≠ 46 ∧ b ≠ 101 ∧ b ≠ 69 := by
  simp only [num_boundary, Bool.not_eq_eq_eq_not, Bool.not_true, Bool.or_eq_false_iff,
    beq_eq_false_iff_ne, ne_eq] at h
  exact ⟨h.1.1.1, h.1.1.2, h.1.2, h.2⟩

/-- Every decimal digit of n is < 10. -/
theorem natDigits_lt10 : ∀ n, ∀ d ∈ natDigits n, d < 10 := by
  intro n
  induction n using Nat.strong_induction_on with
  | _ n ih =>
    match n with
    | 0 => simp [natDigits]
    | m + 1 =>
      rw [natDigits]
      intro d hd
      rw [List.mem_append] at hd
      rcases hd with h | h
      · exact ih ((m + 1) / 10) (Nat.div_lt_self (by omega) (by omega)) d h
      · simp only [List.mem_singleton] at h
        omega

/-- A nonzero n renders with a nonzero leading digit. -/
theorem natDigits_head_pos : ∀ n, n ≠ 0 → ∃ d t, natDigits n = d :: t ∧ 1 ≤ d ∧ d < 10 := by
  intro n
  induction n using Nat.strong_induction_on with
  | _ n ih =>
    match n with
    | 0 => intro h; exact absurd rfl h
    | m + 1 =>
      intro _
      rw [natDigits]
      by_cases hq : (m + 1) / 10 = 0
      · refine ⟨(m + 1) % 10, [], ?_, ?_, ?_⟩
        · rw [hq]; simp [natDigits]
        · omega
        · omega
      · obtain ⟨d, t, heq, hd1, hd2⟩ :=
          ih ((m + 1) / 10) (Nat.div_lt_self (by omega) (by omega)) hq
        exact ⟨d, t ++ [(m + 1) % 10], by rw [heq]; simp, hd1, hd2⟩

/-- Folding digits most-significant-first reconstructs the number. -/
theorem foldl_natDigits : ∀ n acc,
    List.foldl (fun a d => a * 10 + d) acc (natDigits n) =
      acc * 10 ^ (natDigits n).length + n := by
  intro n
  induction n using Nat.strong_induction_on with
  | _ n ih =>
    match n with
    | 0 => intro acc; simp [natDigits]
    | m + 1 =>
      intro acc
      rw [natDigits, List.foldl_append, List.length_append]
      rw [ih ((m + 1) / 10) (Nat.div_lt_self (by omega) (by omega)) acc]
      simp only [List.foldl_cons, List.foldl_nil, List.length_singleton]
      have hpow : 10 ^ ((natDigits ((m + 1) / 10)).length + 1) =
          10 ^ (natDigits ((m + 1) / 10)).length * 10 := by
        rw [pow_succ]
      rw [hpow]
      have := Nat.div_add_mod (m + 1) 10
      ring_nf
      omega

/-- parseDigits consumes exactly a rendered digit run, folding its value. -/
theorem parseDigits_append :
    ∀ ds : List Nat, (∀ d ∈ ds, d < 10) → ∀ rest acc, num_boundary rest = true →
      parseDigits (ds.map (· + 48) ++ rest) acc =
        (List.foldl (fun a d => a * 10 + d) acc ds, rest) := by
  intro ds
  induction ds with
  | nil =>
    intro _ rest acc hrest
    cases rest with
    | nil => rfl
    | cons b t =>
      simp [parseDigits, (num_boundary_cons hrest).1]
  | cons d t ih =>
    intro h rest acc hrest
    have hd : d < 10 := h d (by simp)
    have ht : ∀ x ∈ t, x < 10 := fun x hx => h x (by simp [hx])
    have hdig : isDigitByte (d + 48) = true := by
      simp [isDigitByte]; omega
    simp only [List.map_cons, List.cons_append, parseDigits, hdig, if_true, List.append_eq]
    have harith : acc * 10 + (d + 48 - 48) = acc * 10 + d := by omega
    rw [harith, ih ht rest (acc * 10 + d) hrest]
    simp [List.foldl_cons]

/-- parseFrac is the identity at a number boundary. -/
theorem parseFrac_boundary (rest : List Nat) (h : num_boundary rest = true) :
    parseFrac rest = some (false, rest) := by
  cases rest with
  | nil => rfl
  | cons b t =>
    simp [parseFrac, (num_boundary_cons h).2.1]

/-- parseExp is the identity at a number boundary. -/
theorem parseExp_boundary (rest : List Nat) (h : num_boundary rest = true) :
    parseExp rest = some (false, rest) := by
  cases rest with
  | nil => rfl
  | cons b t =>
    have h' := num_boundary_cons h
    have : ¬(b = 101 ∨ b = 69) := by
      push_neg
      exact ⟨h'.2.2.1, h'.2.2.2⟩
    simp [parseExp, this]

/-- An integer with no fraction or exponent is returned as a num. -/
theorem parseNumTail_boundary (neg : Bool) (n : Nat) (rest : List Nat)
    (h : num_boundary rest = true) :
    parseNumTail neg n rest =
      some (BJson.num (if neg then -(n : Int) else (n : Int)), rest) := by
  simp [parseNumTail, parseFrac_boundary rest h, parseExp_boundary rest h]

/-- parseNumber inverts the decimal rendering of any Nat, up to a number
boundary. -/
theorem parseNumber_natToAscii (n : Nat) (rest : List Nat) (h : num_boundary rest = true) :
    parseNumber (natToAscii n ++ rest) = some (BJson.num (n : Int), rest) := by
  by_cases hn : n = 0
  · subst hn
    simp only [natToAscii, if_pos rfl, List.cons_append, List.nil_append]
    simp only [parseNumber, show (48 : Nat) ≠ 45 by decide, if_false, parseNumberCore,
      if_pos rfl]
    simpa using parseNumTail_boundary false 0 rest h
  · obtain ⟨d, t, heq, hd1, hd2⟩ := natDigits_head_pos n hn
    have ht : ∀ x ∈ t, x < 10 := fun x hx => natDigits_lt10 n x (by rw [heq]; simp [hx])
    simp only [natToAscii, if_neg hn, heq, List.map_cons, List.cons_append]
    have h45 : d + 48 ≠ 45 := by omega
    have h48 : d + 48 ≠ 48 := by omega
    have hdig : isDigitByte (d + 48) = true := by simp [isDigitByte]; omega
    simp only [parseNumber, h45, if_false, parseNumberCore, h48, hdig, if_true]
    rw [parseDigits_append t ht rest (d + 48 - 48) h]
    have hfold : List.foldl (fun a x => a * 10 + x) (d + 48 - 48) t = n := by
      have h0 := foldl_natDigits n 0
      rw [heq] at h0
      simp only [List.foldl_cons] at h0
      have : d + 48 - 48 = d := by omega
      rw [this]
      simpa using h0
    rw [hfold]
    simpa using parseNumTail_boundary false n rest h

/-- Reading back a serde-escaped hex digit. -/
theorem hexVal_hexDigitByte : ∀ x, x < 16 → hexVal (hexDigitByte x) = some x := by
  decide

/-- Each escaped byte renders to at least one byte. -/
theorem escape_json_byte_length_pos : ∀ b, 1 ≤ (escape_json_byte b).length := by
  intro b
  unfold escape_json_byte
  split_ifs <;> simp

/-- Escaping never shortens a string. -/
theorem escape_json_length_ge : ∀ s : List Nat, s.length ≤ (escape_json s).length := by
  intro s
  induction s with
  | nil => simp [escape_json]
  | cons b t ih =>
    have := escape_json_byte_length_pos b
    simp only [escape_json, List.length_append, List.length_cons]
    omega

/-- A non-quote, non-backslash byte at or above 0x20 passes through the
string reader verbatim. -/
theorem parseStringBody_passthrough (b : Nat) (X t rest : List Nat) (hc : ¬ b < 32)
    (h34 : ¬ b = 34) (h92 : ¬ b = 92) (F : Nat) (ih : parseStringBody F X = some (t, rest)) :
    parseStringBody (F + 1) (b :: X) = some (b :: t, rest) := by
  rw [parseStringBody.eq_def]
  split
  · omega
  · rename_i heq1 heq2
    exact absurd heq2 (by simp)
  · rename_i fuel bb rr heq1 heq2
    injection heq2 with hb hr
    subst hb
    subst hr
    have hfu : fuel = F := by omega
    subst hfu
    rw [if_neg h34, if_neg h92, if_neg hc, ih]
    rfl

set_option maxRecDepth 8000 in
/-- parseStringBody inverts serde_json's escaping: the escaped body
followed by a closing quote reads back as the original bytes, for any
spare fuel beyond one unit per original byte. -/
theorem parseStringBody_escape :
    ∀ (s : List Nat) (extra : Nat) (rest : List Nat),
      parseStringBody (extra + (s.length + 1)) (escape_json s ++ 34 :: rest) = some (s, rest)
  | [], extra, rest => rfl
  | b :: t, extra, rest => by
    have ih := parseStringBody_escape t extra rest
    by_cases hc : b < 32
    · interval_cases b
      · exact (show parseStringBody (extra + (t.length + 1 + 1))
            (escape_json ((0 : Nat) :: t) ++ 34 :: rest) =
            (parseStringBody (extra + (t.length + 1)) (escape_json t ++ 34 :: rest)).map
              (fun p => ((0 : Nat) :: p.1, p.2)) from rfl).trans (by rw [ih]; rfl)
      · exact (show parseStringBody (extra + (t.length + 1 + 1))
            (escape_json ((1 : Nat) :: t) ++ 34 :: rest) =
            (parseStringBody (extra + (t.length + 1)) (escape_json t ++ 34 :: rest)).map
              (fun p => ((1 : Nat) :: p.1, p.2)) from rfl).trans (by rw [ih]; rfl)
      · exact (show parseStringBody (extra + (t.length + 1 + 1))
            (escape_json ((2 : Nat) :: t) ++ 34 :: rest) =
            (parseStringBody (extra + (t.length + 1)) (escape_json t ++ 34 :: rest)).map
              (fun p => ((2 : Nat) :: p.1, p.2)) from rfl).trans (by rw [ih]; rfl)
      · exact (show parseStringBody (extra + (t.length + 1 + 1))
            (escape_json ((3 : Nat) :: t) ++ 34 :: rest) =
            (parseStringBody (extra + (t.length + 1)) (escape_json t ++ 34 :: rest)).map
              (fun p => ((3 : Nat) :: p.1, p.2)) from rfl).trans (by rw [ih]; rfl)
      · exact (show parseStringBody (extra + (t.length + 1 + 1))
            (escape_json ((4 : Nat) :: t) ++ 34 :: rest) =
            (parseStringBody (extra + (t.length + 1)) (escape_json t ++ 34 :: rest)).map
              (fun p => ((4 : Nat) :: p.1, p.2)) from rfl).trans (by rw [ih]; rfl)
      · exact (show parseStringBody (extra + (t.length + 1 + 1))
            (escape_json ((5 : Nat) :: t) ++ 34 :: rest) =
            (parseStringBody (extra + (t.length + 1)) (escape_json t ++ 34 :: rest)).map
              (fun p => ((5 : Nat) :: p.1, p.2)) from rfl).trans (by rw [ih]; rfl)
      · exact (show parseStringBody (extra + (t.length + 1 + 1))
            (escape_json ((6 : Nat) :: t) ++ 34 :: rest) =
            (parseStringBody (extra + (t.length + 1)) (escape_json t ++ 34 :: rest)).map
              (fun p => ((6 : Nat) :: p.1, p.2)) from rfl).trans (by rw [ih]; rfl)
      · exact (show parseStringBody (extra + (t.length + 1 + 1))
            (escape_json ((7 : Nat) :: t) ++ 34 :: rest) =
            (parseStringBody (extra + (t.length + 1)) (escape_json t ++ 34 :: rest)).map
              (fun p => ((7 : Nat) :: p.1, p.2)) from rfl).trans (by rw [ih]; rfl)
      · exact (show parseStringBody (extra + (t.length + 1 + 1))
            (escape_json ((8 : Nat) :: t) ++ 34 :: rest) =
            (parseStringBody (extra + (t.length + 1)) (escape_json t ++ 34 :: rest)).map
              (fun p => ((8 : Nat) :: p.1, p.2)) from rfl).trans (by rw [ih]; rfl)
      · exact (show parseStringBody (extra + (t.length + 1 + 1))
            (escape_json ((9 : Nat) :: t) ++ 34 :: rest) =
            (parseStringBody (extra + (t.length + 1)) (escape_json t ++ 34 :: rest)).map
              (fun p => ((9 : Nat) :: p.1, p.2)) from rfl).trans (by rw [ih]; rfl)
      · exact (show parseStringBody (extra + (t.length + 1 + 1))
            (escape_json ((10 : Nat) :: t) ++ 34 :: rest) =
            (parseStringBody (extra + (t.length + 1)) (escape_json t ++ 34 :: rest)).map
              (fun p => ((10 : Nat) :: p.1, p.2)) from rfl).trans (by rw [ih]; rfl)
      · exact (show parseStringBody (extra + (t.length + 1 + 1))
            (escape_json ((11 : Nat) :: t) ++ 34 :: rest) =
            (parseStringBody (extra + (t.length + 1)) (escape_json t ++ 34 :: rest)).map
              (fun p => ((11 : Nat) :: p.1, p.2)) from rfl).trans (by rw [ih]; rfl)
      · exact (show parseStringBody (extra + (t.length + 1 + 1))
            (escape_json ((12 : Nat) :: t) ++ 34 :: rest) =
            (parseStringBody (extra + (t.length + 1)) (escape_json t ++ 34 :: rest)).map
              (fun p => ((12 : Nat) :: p.1, p.2)) from rfl).trans (by rw [ih]; rfl)
      · exact (show parseStringBody (extra + (t.length + 1 + 1))
            (escape_json ((13 : Nat) :: t) ++ 34 :: rest) =
            (parseStringBody (extra + (t.length + 1)) (escape_json t ++ 34 :: rest)).map
              (fun p => ((13 : Nat) :: p.1, p.2)) from rfl).trans (by rw [ih]; rfl)
      · exact (show parseStringBody (extra + (t.length + 1 + 1))
            (escape_json ((14 : Nat) :: t) ++ 34 :: rest) =
            (parseStringBody (extra + (t.length + 1)) (escape_json t ++ 34 :: rest)).map
              (fun p => ((14 : Nat) :: p.1, p.2)) from rfl).trans (by rw [ih]; rfl)
      · exact (show parseStringBody (extra + (t.length + 1 + 1))
            (escape_json ((15 : Nat) :: t) ++ 34 :: rest) =
            (parseStringBody (extra + (t.length + 1)) (escape_json t ++ 34 :: rest)).map
              (fun p => ((15 : Nat) :: p.1, p.2)) from rfl).trans (by rw [ih]; rfl)
      · exact (show parseStringBody (extra + (t.length + 1 + 1))
            (escape_json ((16 : Nat) :: t) ++ 34 :: rest) =
            (parseStringBody (extra + (t.length + 1)) (escape_json t ++ 34 :: rest)).map
              (fun p => ((16 : Nat) :: p.1, p.2)) from rfl).trans (by rw [ih]; rfl)
      · exact (show parseStringBody (extra + (t.length + 1 + 1))
            (escape_json ((17 : Nat) :: t) ++ 34 :: rest) =
            (parseStringBody (extra + (t.length + 1)) (escape_json t ++ 34 :: rest)).map
              (fun p => ((17 : Nat) :: p.1, p.2)) from rfl).trans (by rw [ih]; rfl)
      · exact (show parseStringBody (extra + (t.length + 1 + 1))
            (escape_json ((18 : Nat) :: t) ++ 34 :: rest) =
            (parseStringBody (extra + (t.length + 1)) (escape_json t ++ 34 :: rest)).map
              (fun p => ((18 : Nat) :: p.1, p.2)) from rfl).trans (by rw [ih]; rfl)
      · exact (show parseStringBody (extra + (t.length + 1 + 1))
            (escape_json ((19 : Nat) :: t) ++ 34 :: rest) =
            (parseStringBody (extra + (t.length + 1)) (escape_json t ++ 34 :: rest)).map
              (fun p => ((19 : Nat) :: p.1, p.2)) from rfl).trans (by rw [ih]; rfl)
      · exact (show parseStringBody (extra + (t.length + 1 + 1))
            (escape_json ((20 : Nat) :: t) ++ 34 :: rest) =
            (parseStringBody (extra + (t.length + 1)) (escape_json t ++ 34 :: rest)).map
              (fun p => ((20 : Nat) :: p.1, p.2)) from rfl).trans (by rw [ih]; rfl)
      · exact (show parseStringBody (extra + (t.length + 1 + 1))
            (escape_json ((21 : Nat) :: t) ++ 34 :: rest) =
            (parseStringBody (extra + (t.length + 1)) (escape_json t ++ 34 :: rest)).map
              (fun p => ((21 : Nat) :: p.1, p.2)) from rfl).trans (by rw [ih]; rfl)
      · exact (show parseStringBody (extra + (t.length + 1 + 1))
            (escape_json ((22 : Nat) :: t) ++ 34 :: rest) =
            (parseStringBody (extra + (t.length + 1)) (escape_json t ++ 34 :: rest)).map
              (fun p => ((22 : Nat) :: p.1, p.2)) from rfl).trans (by rw [ih]; rfl)
      · exact (show parseStringBody (extra + (t.length + 1 + 1))
            (escape_json ((23 : Nat) :: t) ++ 34 :: rest) =
            (parseStringBody (extra + (t.length + 1)) (escape_json t ++ 34 :: rest)).map
              (fun p => ((23 : Nat) :: p.1, p.2)) from rfl).trans (by rw [ih]; rfl)
      · exact (show parseStringBody (extra + (t.length + 1 + 1))
            (escape_json ((24 : Nat) :: t) ++ 34 :: rest) =
            (parseStringBody (extra + (t.length + 1)) (escape_json t ++ 34 :: rest)).map
              (fun p => ((24 : Nat) :: p.1, p.2)) from rfl).trans (by rw [ih]; rfl)
      · exact (show parseStringBody (extra + (t.length + 1 + 1))
            (escape_json ((25 : Nat) :: t) ++ 34 :: rest) =
            (parseStringBody (extra + (t.length + 1)) (escape_json t ++ 34 :: rest)).map
              (fun p => ((25 : Nat) :: p.1, p.2)) from rfl).trans (by rw [ih]; rfl)
      · exact (show parseStringBody (extra + (t.length + 1 + 1))
            (escape_json ((26 : Nat) :: t) ++ 34 :: rest) =
            (parseStringBody (extra + (t.length + 1)) (escape_json t ++ 34 :: rest)).map
              (fun p => ((26 : Nat) :: p.1, p.2)) from rfl).trans (by rw [ih]; rfl)
      · exact (show parseStringBody (extra + (t.length + 1 + 1))
            (escape_json ((27 : Nat) :: t) ++ 34 :: rest) =
            (parseStringBody (extra + (t.length + 1)) (escape_json t ++ 34 :: rest)).map
              (fun p => ((27 : Nat) :: p.1, p.2)) from rfl).trans (by rw [ih]; rfl)
      · exact (show parseStringBody (extra + (t.length + 1 + 1))
            (escape_json ((28 : Nat) :: t) ++ 34 :: rest) =
            (parseStringBody (extra + (t.length + 1)) (escape_json t ++ 34 :: rest)).map
              (fun p => ((28 : Nat) :: p.1, p.2)) from rfl).trans (by rw [ih]; rfl)
      · exact (show parseStringBody (extra + (t.length + 1 + 1))
            (escape_json ((29 : Nat) :: t) ++ 34 :: rest) =
            (parseStringBody (extra + (t.length + 1)) (escape_json t ++ 34 :: rest)).map
              (fun p => ((29 : Nat) :: p.1, p.2)) from rfl).trans (by rw [ih]; rfl)
      · exact (show parseStringBody (extra + (t.length + 1 + 1))
            (escape_json ((30 : Nat) :: t) ++ 34 :: rest) =
            (parseStringBody (extra + (t.length + 1)) (escape_json t ++ 34 :: rest)).map
              (fun p => ((30 : Nat) :: p.1, p.2)) from rfl).trans (by rw [ih]; rfl)
      · exact (show parseStringBody (extra + (t.length + 1 + 1))
            (escape_json ((31 : Nat) :: t) ++ 34 :: rest) =
            (parseStringBody (extra + (t.length + 1)) (escape_json t ++ 34 :: rest)).map
              (fun p => ((31 : Nat) :: p.1, p.2)) from rfl).trans (by rw [ih]; rfl)
    · by_cases h34 : b = 34
      · subst h34
        exact (show parseStringBody (extra + (t.length + 1 + 1))
            (escape_json ((34 : Nat) :: t) ++ 34 :: rest) =
            (parseStringBody (extra + (t.length + 1)) (escape_json t ++ 34 :: rest)).map
              (fun p => ((34 : Nat) :: p.1, p.2)) from rfl).trans (by rw [ih]; rfl)
      · by_cases h92 : b = 92
        · subst h92
          exact (show parseStringBody (extra + (t.length + 1 + 1))
              (escape_json ((92 : Nat) :: t) ++ 34 :: rest) =
              (parseStringBody (extra + (t.length + 1)) (escape_json t ++ 34 :: rest)).map
                (fun p => ((92 : Nat) :: p.1, p.2)) from rfl).trans (by rw [ih]; rfl)
        · -- any other byte >= 32 passes through verbatim
          have hb : escape_json_byte b = [b] := by
            unfold escape_json_byte
            rw [if_neg h34, if_neg h92, if_neg (by omega : ¬ b = 8),
              if_neg (by omega : ¬ b = 9), if_neg (by omega : ¬ b = 10),
              if_neg (by omega : ¬ b = 12), if_neg (by omega : ¬ b = 13),
              if_neg (by omega : ¬ b < 32)]
          have he : escape_json (b :: t) = b :: escape_json t := by
            have h1 : escape_json (b :: t) = escape_json_byte b ++ escape_json t := rfl
            rw [h1, hb]
            rfl
          rw [he, List.cons_append]
          show parseStringBody ((extra + (t.length + 1)) + 1)
            (b :: (escape_json t ++ 34 :: rest)) = some (b :: t, rest)
          exact parseStringBody_passthrough b _ t rest hc h34 h92 _ ih

/-- The escape-inversion lemma at the fuel the parser actually passes:
one unit more than the input length. -/
theorem parseStringBody_escape_input (s rest : List Nat) :
    parseStringBody ((escape_json s ++ 34 :: rest).length + 1) (escape_json s ++ 34 :: rest) =
      some (s, rest) := by
  have hge := escape_json_length_ge s
  have hf : (escape_json s ++ 34 :: rest).length + 1
      = ((escape_json s).length - s.length + rest.length + 1) + (s.length + 1) := by
    simp only [List.length_append, List.length_cons]
    omega
  rw [hf]
  exact parseStringBody_escape s _ rest

/-- skipWs leaves input starting with a non-whitespace byte unchanged. -/
theorem skipWs_not_ws {b : Nat} (h : ¬(b = 32 ∨ b = 9 ∨ b = 10 ∨ b = 13)) (l : List Nat) :
    skipWs (b :: l) = b :: l := by
  rw [skipWs, if_neg h]

/-- Binding a some applies the continuation. -/
theorem option_bind_some {α β : Type} (a : α) (f : α → Option β) :
    Option.bind (some a) f = f a := rfl

/-- A value whose first byte opens a string. -/
theorem parseValue_quote (f : Nat) (l : List Nat) :
    parseValue (f + 1) (34 :: l) =
      (parseStringBody (l.length + 1) l).bind fun p =>
        if is_valid_utf8 p.1 then some (BJson.str p.1, p.2) else none := rfl

/-- A value opening an object whose first member starts immediately with a
quoted key. -/
theorem parseValue_brace_quote (f : Nat) (X : List Nat) :
    parseValue (f + 1) (123 :: 34 :: X) =
      (parseMembers f (34 :: X)).map fun p => (BJson.obj p.1, p.2) := rfl

/-- A value whose first byte is a decimal digit is read as a number. -/
theorem parseValue_to_number (f b : Nat) (l : List Nat) (h48 : 48 ≤ b) (h57 : b ≤ 57) :
    parseValue (f + 1) (b :: l) = parseNumber (b :: l) := by
  rw [parseValue.eq_def]
  split
  · omega
  · rename_i fuel bs heq1 heq2
    rw [skipWs_not_ws (by omega)]
    split
    · rename_i heq3
      exact absurd heq3 (by simp)
    · rename_i bb rest heq3
      injection heq3 with hb hr
      subst hb
      subst hr
      rw [if_neg (by omega : ¬ b = 110), if_neg (by omega : ¬ b = 116),
        if_neg (by omega : ¬ b = 102), if_neg (by omega : ¬ b = 34),
        if_neg (by omega : ¬ b = 91), if_neg (by omega : ¬ b = 123)]

/-- parseValue inverts the decimal rendering of a Nat at a number
boundary. -/
theorem parseValue_number (f n : Nat) (rest : List Nat) (hnb : num_boundary rest = true) :
    parseValue (f + 1) (natToAscii n ++ rest) = some (BJson.num (n : Int), rest) := by
  obtain ⟨h, hs, hhead, hh1, hh2⟩ :
      ∃ h hs, natToAscii n = h :: hs ∧ 48 ≤ h ∧ h ≤ 57 := by
    by_cases hn : n = 0
    · exact ⟨48, [], by simp [natToAscii, hn], by omega, by omega⟩
    · obtain ⟨d, t, heq, hd1, hd2⟩ := natDigits_head_pos n hn
      exact ⟨d + 48, t.map (· + 48), by simp [natToAscii, hn, heq], by omega, by omega⟩
  rw [hhead, List.cons_append, parseValue_to_number f h (hs ++ rest) hh1 hh2,
    ← List.cons_append, ← hhead]
  exact parseNumber_natToAscii n rest hnb

/-- parseMembers on input opening with a quoted key. -/
theorem parseMembers_step (f : Nat) (X : List Nat) :
    parseMembers (f + 1) (34 :: X) =
      (parseStringBody (X.length + 1) X).bind fun kp =>
        if is_valid_utf8 kp.1 then
          match skipWs kp.2 with
          | 58 :: r2 =>
            (parseValue f r2).bind fun vp =>
              match skipWs vp.2 with
              | 44 :: r4 => (parseMembers f (skipWs r4)).map fun q =>
                  ((kp.1, vp.1) :: q.1, q.2)
              | 125 :: r4 => some ([(kp.1, vp.1)], r4)
              | _ => none
          | _ => none
        else none := rfl

/-- One object member whose key needs no escaping, followed by a colon and
a value. -/
theorem parseMembers_keyed (f : Nat) (k : List Nat) (hk : is_valid_utf8 k = true)
    (hke : escape_json k = k) (VREST : List Nat) :
    parseMembers (f + 1) (34 :: (k ++ 34 :: 58 :: VREST)) =
      (parseValue f VREST).bind fun vp =>
        match skipWs vp.2 with
        | 44 :: r4 => (parseMembers f (skipWs r4)).map fun q => ((k, vp.1) :: q.1, q.2)
        | 125 :: r4 => some ([(k, vp.1)], r4)
        | _ => none := by
  conv_lhs => rw [← hke]
  rw [parseMembers_step, parseStringBody_escape_input k (58 :: VREST), option_bind_some]
  simp only [hk, if_true]
  rw [skipWs_not_ws (by decide)]

/-- The continuation after a member's value when a comma follows. -/
theorem member_after_value_comma (f : Nat) (k : List Nat) (v : BJson) (R : List Nat) :
    (Option.bind (some (v, 44 :: R)) fun vp =>
      match skipWs vp.2 with
      | 44 :: r4 => (parseMembers f (skipWs r4)).map fun q => ((k, vp.1) :: q.1, q.2)
      | 125 :: r4 => some ([(k, vp.1)], r4)
      | _ => none) =
      (parseMembers f (skipWs R)).map fun q => ((k, v) :: q.1, q.2) := rfl

/-- The continuation after a member's value when the closing byte 125
follows. -/
theorem member_after_value_brace (f : Nat) (k : List Nat) (v : BJson) (R : List Nat) :
    (Option.bind (some (v, 125 :: R)) fun vp =>
      match skipWs vp.2 with
      | 44 :: r4 => (parseMembers f (skipWs r4)).map fun q => ((k, vp.1) :: q.1, q.2)
      | 125 :: r4 => some ([(k, vp.1)], r4)
      | _ => none) = some ([(k, v)], R) := rfl

/-- Parsing a serialized cursor yields exactly its field object, consuming
the whole input, for any fuel slack f. -/
theorem parseValue_serialize (c : RestCursor)
    (hpath : ∀ p, c.path = some p → is_valid_utf8 p = true) (f : Nat) :
    parseValue (f + 5) (serialize_rest_cursor c) =
      some (BJson.obj (cursor_fields c), []) := by
  cases hp : c.path with
  | none =>
    simp only [serialize_rest_cursor, cursor_fields, hp]
    have hv2 : parseValue ((f + 1) + 1) (natToAscii c.per_page ++ [125]) =
        some (BJson.num (c.per_page : Int), [125]) :=
      parseValue_number (f + 1) c.per_page [125] (by decide)
    have hm2 : parseMembers ((f + 2) + 1) (34 :: (keyPerPage ++ 34 :: 58 :: (natToAscii c.per_page ++ [125]))) =
        some ([(keyPerPage, BJson.num (c.per_page : Int))], []) := by
      rw [parseMembers_keyed (f + 2) keyPerPage (by decide) rfl, hv2,
        member_after_value_brace]
    have hv1 : parseValue ((f + 2) + 1) (natToAscii c.page ++ 44 :: 34 :: (keyPerPage ++ 34 :: 58 :: (natToAscii c.per_page ++ [125]))) =
        some (BJson.num (c.page : Int), 44 :: 34 :: (keyPerPage ++ 34 :: 58 :: (natToAscii c.per_page ++ [125]))) :=
      parseValue_number (f + 2) c.page _ rfl
    have hm1 : parseMembers ((f + 3) + 1) (34 :: (keyPage ++ 34 :: 58 :: (natToAscii c.page ++ 44 :: 34 :: (keyPerPage ++ 34 :: 58 :: (natToAscii c.per_page ++ [125]))))) =
        some ([(keyPage, BJson.num (c.page : Int)),
          (keyPerPage, BJson.num (c.per_page : Int))], []) := by
      rw [parseMembers_keyed (f + 3) keyPage (by decide) rfl, hv1,
        member_after_value_comma, skipWs_not_ws (by decide), hm2]
      rfl
    exact (parseValue_brace_quote (f + 4) _).trans (by rw [hm1]; rfl)
  | some p =>
    have hpv : is_valid_utf8 p = true := hpath p hp
    simp only [serialize_rest_cursor, cursor_fields, hp]
    have hv3 : parseValue (f + 1) (34 :: (escape_json p ++ [34, 125])) = some (BJson.str p, [125]) := by
      rw [parseValue_quote f, parseStringBody_escape_input p [125], option_bind_some]
      simp [hpv]
    have hm3 : parseMembers ((f + 1) + 1) (34 :: (keyPath ++ 34 :: 58 :: 34 :: (escape_json p ++ [34, 125]))) =
        some ([(keyPath, BJson.str p)], []) := by
      rw [parseMembers_keyed (f + 1) keyPath (by decide) rfl, hv3,
        member_after_value_brace]
    have hv2 : parseValue ((f + 1) + 1) (natToAscii c.per_page ++ 44 :: 34 :: (keyPath ++ 34 :: 58 :: 34 :: (escape_json p ++ [34, 125]))) =
        some (BJson.num (c.per_page : Int), 44 :: 34 :: (keyPath ++ 34 :: 58 :: 34 :: (escape_json p ++ [34, 125]))) :=
      parseValue_number (f + 1) c.per_page _ rfl
    have hm2 : parseMembers ((f + 2) + 1) (34 :: (keyPerPage ++ 34 :: 58 :: (natToAscii c.per_page ++ 44 :: 34 :: (keyPath ++ 34 :: 58 :: 34 :: (escape_json p ++ [34, 125]))))) =
        some ([(keyPerPage, BJson.num (c.per_page : Int)),
          (keyPath, BJson.str p)], []) := by
      rw [parseMembers_keyed (f + 2) keyPerPage (by decide) rfl, hv2,
        member_after_value_comma, skipWs_not_ws (by decide), hm3]
      rfl
    have hv1 : parseValue ((f + 2) + 1) (natToAscii c.page ++ 44 :: 34 :: (keyPerPage ++ 34 :: 58 :: (natToAscii c.per_page ++ 44 :: 34 :: (keyPath ++ 34 :: 58 :: 34 :: (escape_json p ++ [34, 125]))))) =
        some (BJson.num (c.page : Int), 44 :: 34 :: (keyPerPage ++ 34 :: 58 :: (natToAscii c.per_page ++ 44 :: 34 :: (keyPath ++ 34 :: 58 :: 34 :: (escape_json p ++ [34, 125]))))) :=
      parseValue_number (f + 2) c.page _ rfl
    have hm1 : parseMembers ((f + 3) + 1) (34 :: (keyPage ++ 34 :: 58 :: (natToAscii c.page ++ 44 :: 34 :: (keyPerPage ++ 34 :: 58 :: (natToAscii c.per_page ++ 44 :: 34 :: (keyPath ++ 34 :: 58 :: 34 :: (escape_json p ++ [34, 125]))))))) =
        some ([(keyPage, BJson.num (c.page : Int)),
          (keyPerPage, BJson.num (c.per_page : Int)),
          (keyPath, BJson.str p)], []) := by
      rw [parseMembers_keyed (f + 3) keyPage (by decide) rfl, hv1,
        member_after_value_comma, skipWs_not_ws (by decide), hm2]
      rfl
    exact (parseValue_brace_quote (f + 4) _).trans (by rw [hm1]; rfl)

/-- Folding a page member records the page value. -/
theorem cursor_fold_cons_page (n : Int) (hn : 0 ≤ n ∧ n < 4294967296)
    (rest : List (List Nat × BJson)) (ppO : Option Nat) (ps : Bool)
    (pv : Option (List Nat)) :
    cursor_fold ((keyPage, BJson.num n) :: rest) none ppO ps pv =
      cursor_fold rest (some n.toNat) ppO ps pv := by
  show (if 0 ≤ n ∧ n < 4294967296 then cursor_fold rest (some n.toNat) ppO ps pv
        else none) = cursor_fold rest (some n.toNat) ppO ps pv
  rw [if_pos hn]

/-- Folding a per_page member records the per_page value. -/
theorem cursor_fold_cons_pp (n : Int) (hn : 0 ≤ n ∧ n < 4294967296)
    (rest : List (List Nat × BJson)) (pageO : Option Nat) (ps : Bool)
    (pv : Option (List Nat)) :
    cursor_fold ((keyPerPage, BJson.num n) :: rest) pageO none ps pv =
      cursor_fold rest pageO (some n.toNat) ps pv := by
  show (if 0 ≤ n ∧ n < 4294967296 then cursor_fold rest pageO (some n.toNat) ps pv
        else none) = cursor_fold rest pageO (some n.toNat) ps pv
  rw [if_pos hn]

/-- Folding a string path member records the path. -/
theorem cursor_fold_cons_path (p : List Nat) (rest : List (List Nat × BJson))
    (pageO ppO : Option Nat) (pv : Option (List Nat)) :
    cursor_fold ((keyPath, BJson.str p) :: rest) pageO ppO false pv =
      cursor_fold rest pageO ppO true (some p) := rfl

/-- An exhausted fold with both required fields seen yields the cursor. -/
theorem cursor_fold_nil (X Y : Nat) (ps : Bool) (pv : Option (List Nat)) :
    cursor_fold [] (some X) (some Y) ps pv = some ⟨X, Y, pv⟩ := rfl

/-- Extracting a serialized cursor's field object rebuilds the cursor. -/
theorem cursor_from_json_fields (c : RestCursor) (hpage : c.page < 4294967296)
    (hpp : c.per_page < 4294967296) :
    cursor_from_json (BJson.obj (cursor_fields c)) = some c := by
  have hpg : (0 ≤ (c.page : Int) ∧ (c.page : Int) < 4294967296) :=
    ⟨Int.ofNat_nonneg c.page, by exact_mod_cast hpage⟩
  have hppg : (0 ≤ (c.per_page : Int) ∧ (c.per_page : Int) < 4294967296) :=
    ⟨Int.ofNat_nonneg c.per_page, by exact_mod_cast hpp⟩
  show cursor_fold (cursor_fields c) none none false none = some c
  cases hp : c.path with
  | none =>
    simp only [cursor_fields, hp]
    rw [cursor_fold_cons_page _ hpg, cursor_fold_cons_pp _ hppg, cursor_fold_nil]
    cases c with
    | mk page per_page path =>
      simp only at hp
      subst hp
      simp
  | some p =>
    simp only [cursor_fields, hp]
    rw [cursor_fold_cons_page _ hpg, cursor_fold_cons_pp _ hppg, cursor_fold_cons_path,
      cursor_fold_nil]
    cases c with
    | mk page per_page path =>
      simp only at hp
      subst hp
      simp

/-- Rendered decimal digits are ASCII bytes below 256. -/
theorem natToAscii_lt (n : Nat) : ∀ b ∈ natToAscii n, b < 256 := by
  intro b hb
  by_cases hn : n = 0
  · simp [natToAscii, hn] at hb
    omega
  · simp only [natToAscii, if_neg hn, List.mem_map] at hb
    obtain ⟨d, hd, rfl⟩ := hb
    have := natDigits_lt10 n d hd
    omega

/-- An escaped byte's rendering stays below 256 when the byte does. -/
theorem escape_json_byte_lt (b : Nat) (hb : b < 256) :
    ∀ x ∈ escape_json_byte b, x < 256 := by
  intro x hx
  unfold escape_json_byte hexDigitByte at hx
  split_ifs at hx <;> simp at hx <;> omega

/-- Escaping preserves the byte bound. -/
theorem escape_json_lt : ∀ s : List Nat, (∀ b ∈ s, b < 256) →
    ∀ x ∈ escape_json s, x < 256 := by
  intro s
  induction s with
  | nil => intro _ x hx; simp [escape_json] at hx
  | cons b t ih =>
    intro h x hx
    simp only [escape_json, List.mem_append] at hx
    rcases hx with hx | hx
    · exact escape_json_byte_lt b (h b (by simp)) x hx
    · exact ih (fun y hy => h y (by simp [hy])) x hx

/-- All bytes of a serialized cursor are below 256 (given a byte-bounded
path). -/
theorem serialize_bytes_lt (c : RestCursor)
    (hpath : ∀ p, c.path = some p → ∀ b ∈ p, b < 256) :
    ∀ b ∈ serialize_rest_cursor c, b < 256 := by
  intro b hb
  cases hp : c.path with
  | none =>
    simp only [serialize_rest_cursor, hp, List.mem_cons, List.mem_append, keyPage,
      keyPerPage, List.mem_singleton, List.not_mem_nil, or_false] at hb
    casesm* _ ∨ _
    all_goals first
      | omega
      | exact natToAscii_lt c.page b (by assumption)
      | exact natToAscii_lt c.per_page b (by assumption)
  | some p =>
    have hpb : ∀ x ∈ p, x < 256 := hpath p hp
    simp only [serialize_rest_cursor, hp, List.mem_cons, List.mem_append, keyPage,
      keyPerPage, keyPath, List.mem_singleton, List.not_mem_nil, or_false] at hb
    casesm* _ ∨ _
    all_goals first
      | omega
      | exact natToAscii_lt c.page b (by assumption)
      | exact natToAscii_lt c.per_page b (by assumption)
      | exact escape_json_lt p hpb b (by assumption)

/-- A serialized cursor is at least 5 bytes long. -/
theorem serialize_length_ge (c : RestCursor) : 4 ≤ (serialize_rest_cursor c).length := by
  cases hp : c.path with
  | none => simp [serialize_rest_cursor, hp, keyPage, keyPerPage]
  | some p => simp [serialize_rest_cursor, hp, keyPage, keyPerPage, keyPath]

/-- Document-level parse of a serialized cursor. -/
theorem parse_json_serialize (c : RestCursor)
    (hpath : ∀ p, c.path = some p → is_valid_utf8 p = true) :
    parse_json (serialize_rest_cursor c) = some (BJson.obj (cursor_fields c)) := by
  have hlen := serialize_length_ge c
  have hf : (serialize_rest_cursor c).length + 1 =
      ((serialize_rest_cursor c).length - 4) + 5 := by omega
  rw [parse_json, hf, parseValue_serialize c hpath ((serialize_rest_cursor c).length - 4)]
  rfl

/-- C3: decoding an encoded REST cursor returns exactly the cursor
(page and per_page being u32 values, and the optional path the UTF-8
bytes of a Rust string); the encoding function is pure and deterministic,
and every byte of the token lies in the URL-safe base64 alphabet with no
padding byte. -/
theorem rest_cursor_roundtrip (c : RestCursor)
    (hpage : c.page < 4294967296) (hpp : c.per_page < 4294967296)
    (hpath : ∀ p, c.path = some p → (∀ b ∈ p, b < 256) ∧ is_valid_utf8 p = true) :
    decode_rest_cursor (encode_rest_cursor c) = some c ∧
    (∀ b ∈ encode_rest_cursor c, is_url_safe_b64_byte b = true ∧ b ≠ 61) := by
  have hbytes : ∀ b ∈ serialize_rest_cursor c, b < 256 :=
    serialize_bytes_lt c (fun p hp => (hpath p hp).1)
  constructor
  · rw [decode_rest_cursor, encode_rest_cursor, b64_decode_encode _ hbytes, option_bind_some]
    show (parse_json (serialize_rest_cursor c)).bind cursor_from_json = some c
    rw [parse_json_serialize c (fun p hp => (hpath p hp).2), option_bind_some]
    exact cursor_from_json_fields c hpage hpp
  · intro b hb
    rw [encode_rest_cursor] at hb
    simp only [b64_encode, List.mem_map] at hb
    obtain ⟨sx, hsx, rfl⟩ := hb
    exact b64_alphabet_url_safe sx (b64_sextets_lt _ hbytes sx hsx)

/-- Witness for C3 at the cursor page 2, per_page 30, path "/x" ([47, 120]). -/
theorem rest_cursor_roundtrip_witness :
    decode_rest_cursor (encode_rest_cursor ⟨2, 30, some [47, 120]⟩) =
      some ⟨2, 30, some [47, 120]⟩ :=
  (rest_cursor_roundtrip ⟨2, 30, some [47, 120]⟩ (by norm_num) (by norm_num)
    (fun p hp => by cases hp; exact ⟨by decide, by decide⟩)).1

/-- C10: decoding is total into Option — a malformed token yields none
rather than an error (shown on the spec's concrete example
"not-valid-base64-or-json", whose bytes are below) — and the call-site
parse_page_cursor then falls back to the caller-supplied page (default 1)
and per_page (default 30, clamped at 100) instead of failing. -/
theorem decode_cursor_tolerance :
    decode_rest_cursor
      [110, 111, 116, 45, 118, 97, 108, 105, 100, 45, 98, 97, 115, 101, 54, 52,
        45, 111, 114, 45, 106, 115, 111, 110] = none ∧
    (∀ garbage page per_page, decode_rest_cursor garbage = none →
      parse_page_cursor (some garbage) page per_page =
        (page.getD 1, min (per_page.getD 30) 100, none)) ∧
    parse_page_cursor
      (some [110, 111, 116, 45, 118, 97, 108, 105, 100, 45, 98, 97, 115, 101, 54, 52,
        45, 111, 114, 45, 106, 115, 111, 110]) none none = (1, 30, none) := by
  refine ⟨rfl, ?_, rfl⟩
  intro g page per_page h
  simp [parse_page_cursor, h]

/-- Witness for C10: the fallback applied to the concrete garbage token
with caller-supplied page 4 and per_page 200. -/
theorem decode_cursor_tolerance_witness :
    parse_page_cursor
      (some [110, 111, 116, 45, 118, 97, 108, 105, 100, 45, 98, 97, 115, 101, 54, 52,
        45, 111, 114, 45, 106, 115, 111, 110]) (some 4) (some 200) = (4, 100, none) :=
  decode_cursor_tolerance.2.1 _ (some 4) (some 200) (by rfl)

/-- C4: for the meta built by handle_list_workflows and wrapped by
mcp_wrap, next_cursor is present in the serialized metadata exactly when
has_more is true (and then both keys appear together); when has_more is
false both keys are dropped; when the per-call rate opt-in is off the
rate key is dropped; and when the pruned metadata is empty — a
single-page result without the rate opt-in — the meta member is omitted
from structuredContent entirely. -/
theorem meta_pruning_pairing (page per_page : Nat) (items : Option (List WorkflowItem))
    (rate : Option RateMeta) (has_more : Bool) (err : Option ErrorShape)
    (include_rate is_error : Bool) (text_opt : Option String) :
    ((workflows_meta page per_page has_more rate).next_cursor.isSome = has_more) ∧
    ((has_more = false ∧ include_rate = false) →
      structured_meta (mcp_wrap (list_workflows_output_to_json
        ⟨items, workflows_meta page per_page has_more rate, err⟩) text_opt is_error include_rate)
        = none) ∧
    (has_more = true →
      structured_meta (mcp_wrap (list_workflows_output_to_json
        ⟨items, workflows_meta page per_page has_more rate, err⟩) text_opt is_error include_rate)
        = some (JValue.obj
            ([("next_cursor", JValue.str (asciiToString
                (encode_rest_cursor ⟨page + 1, per_page, none⟩))),
              ("has_more", JValue.bool true)] ++
             (if include_rate then [("rate", jsonOptRate rate)] else [])))) ∧
    (has_more = false →
      structured_meta (mcp_wrap (list_workflows_output_to_json
        ⟨items, workflows_meta page per_page has_more rate, err⟩) text_opt is_error include_rate)
        = if include_rate then some (JValue.obj [("rate", jsonOptRate rate)]) else none) := by
  cases has_more <;> cases include_rate <;> cases err <;> cases is_error <;>
    refine ⟨rfl, fun h => ?_, fun h => ?_, fun h => ?_⟩ <;>
    first
      | rfl
      | exact absurd h (by decide)

/-- Witness for C4: a single-page workflows result with the rate opt-in
off serializes with no meta member at all. -/
theorem meta_pruning_pairing_witness :
    structured_meta (mcp_wrap (list_workflows_output_to_json
      ⟨none, workflows_meta 2 30 false none, none⟩) none false false) = none :=
  (meta_pruning_pairing 2 30 none none false none false false none).2.1 ⟨rfl, rfl⟩

/-- Every JSON-RPC error handle_list_issues itself produces carries code
-32602 or -32603. -/
lemma handle_list_issues_codes (d : ServerDeps) (ir : Bool) (id : Option RpcId)
    (params : JValue) :
    (handle_list_issues d ir id params).error = none ∨
    ∃ er, (handle_list_issues d ir id params).error = some er ∧
      (er.code = -32602 ∨ er.code = -32603) := by
  cases hin : list_issues_input_from_json params with
  | none =>
    simp only [handle_list_issues, hin]
    exact Or.inr ⟨⟨-32602, "Invalid params", none⟩, rfl, Or.inl rfl⟩
  | some input =>
    cases hl : enforce_limit input.limit with
    | error e =>
      simp only [handle_list_issues, hin, hl]
      exact Or.inr ⟨⟨-32602, "Invalid limit (1..=100)", none⟩, rfl, Or.inl rfl⟩
    | ok l =>
      cases hc : d.cfg with
      | error e =>
        simp only [handle_list_issues, hin, hl, hc]
        exact Or.inr ⟨⟨-32603, e, none⟩, rfl, Or.inr rfl⟩
      | ok u =>
        simp only [handle_list_issues, hin, hl, hc]
        exact Or.inl rfl

/-- C5: a tools/call whose named tool runs but whose upstream call fails
is answered with a JSON-RPC success response — error none, result some —
whose envelope carries isError true and the ErrorInfo under
structuredContent.error; handle_list_issues itself emits JSON-RPC errors
only with codes -32602 and -32603; every response of the modeled stdio
pipeline that is a JSON-RPC error carries one of the protocol codes
-32700, -32601, -32602, -32603 (given that the abstract remaining tool
handlers only emit -32602 or -32603, the shape shared by all of them); an
unreadable line is answered -32700 with a null id; and an unknown method
is answered -32601. -/
theorem tool_error_envelope (d : ServerDeps)
    (hother : ∀ n ir id args, (d.other n ir id args).error = none ∨
      ∃ er, (d.other n ir id args).error = some er ∧ (er.code = -32602 ∨ er.code = -32603)) :
    (∀ (ir : Bool) (id : Option RpcId) (params : JValue) (input : ListIssuesInput) (l : Nat)
        (e : ErrorInfo) (dta : Option LIData) (rt : Option RateMeta),
      list_issues_input_from_json params = some input →
      enforce_limit input.limit = Except.ok l →
      d.cfg = Except.ok () →
      d.client = Except.ok () →
      d.gql = (dta, rt, some e) →
      (handle_list_issues d ir id params).error = none ∧
      (handle_list_issues d ir id params).id = id ∧
      ∃ w, (handle_list_issues d ir id params).result = some w ∧
        wrapIsError w = some (JValue.bool true) ∧
        structured_error w = some (error_shape_to_json ⟨e.code, e.message, e.retriable⟩)) ∧
    (∀ ir id params, (handle_list_issues d ir id params).error = none ∨
      ∃ er, (handle_list_issues d ir id params).error = some er ∧
        (er.code = -32602 ∨ er.code = -32603)) ∧
    (∀ line r, process_line d line = some r →
      r.error = none ∨ ∃ er, r.error = some er ∧
        (er.code = -32700 ∨ er.code = -32601 ∨ er.code = -32602 ∨ er.code = -32603)) ∧
    (process_line d none = some (rpc_error none (-32700) "Parse error" none)) ∧
    (∀ req : RpcRequest, req.method ≠ "initialize" → req.method ≠ "tools/list" →
      req.method ≠ "tools/call" →
      dispatch d req = rpc_error req.id (-32601) ("Method not found: " ++ req.method) none) := by
  refine ⟨?_, fun ir id params => handle_list_issues_codes d ir id params, ?_, rfl, ?_⟩
  · intro ir id params input l e dta rt hin hl hcfg hclient hgql
    simp only [handle_list_issues, hin, hl, hcfg, list_issues_fetch, hclient, hgql]
    cases ir <;> exact ⟨rfl, rfl, _, rfl, rfl, rfl⟩
  · intro line r hr
    cases line with
    | none =>
      simp only [process_line] at hr
      injection hr with hr
      subst hr
      exact Or.inr ⟨⟨-32700, "Parse error", none⟩, rfl, Or.inl rfl⟩
    | some v =>
      cases hdec : decodeRequest v with
      | none =>
        simp only [process_line, hdec] at hr
        injection hr with hr
        subst hr
        exact Or.inr ⟨⟨-32700, "Parse error", none⟩, rfl, Or.inl rfl⟩
      | some req =>
        cases hid : req.id with
        | none =>
          simp only [process_line, hdec, hid] at hr
          exact Option.noConfusion hr
        | some i =>
          simp only [process_line, hdec, hid] at hr
          injection hr with hr
          subst hr
          rw [dispatch]
          by_cases h1 : req.method = "initialize"
          · rw [if_pos h1]; exact Or.inl rfl
          rw [if_neg h1]
          by_cases h2 : req.method = "tools/list"
          · rw [if_pos h2]; exact Or.inl rfl
          rw [if_neg h2]
          by_cases h3 : req.method = "tools/call"
          · rw [if_pos h3]
            cases hp : tool_call_params_from_json req.params with
            | none =>
              simp only [handle_tools_call, hp]
              exact Or.inr ⟨⟨-32602, "Invalid params", none⟩, rfl, Or.inr (Or.inr (Or.inl rfl))⟩
            | some pr =>
              obtain ⟨name, arguments⟩ := pr
              simp only [handle_tools_call, hp]
              by_cases hn1 : name = "ping"
              · rw [if_pos hn1]
                cases hpe : d.ping_enabled with
                | false =>
                  exact Or.inr ⟨⟨-32601, "Tool not found: ping (disabled)", none⟩, rfl,
                    Or.inr (Or.inl rfl)⟩
                | true => exact Or.inl rfl
              · rw [if_neg hn1]
                by_cases hn2 : name = "list_issues"
                · rw [if_pos hn2]
                  exact Or.imp (fun h => h)
                    (fun h => match h with
                      | ⟨er, he, Or.inl hc⟩ => ⟨er, he, Or.inr (Or.inr (Or.inl hc))⟩
                      | ⟨er, he, Or.inr hc⟩ => ⟨er, he, Or.inr (Or.inr (Or.inr hc))⟩)
                    (handle_list_issues_codes d _ req.id _)
                · rw [if_neg hn2]
                  cases hct : otherTools.contains name with
                  | true =>
                    exact Or.imp (fun h => h)
                      (fun h => match h with
                        | ⟨er, he, Or.inl hc⟩ => ⟨er, he, Or.inr (Or.inr (Or.inl hc))⟩
                        | ⟨er, he, Or.inr hc⟩ => ⟨er, he, Or.inr (Or.inr (Or.inr hc))⟩)
                      (hother name _ req.id _)
                  | false =>
                    exact Or.inr ⟨⟨-32601, "Tool not found: " ++ name, none⟩, rfl,
                      Or.inr (Or.inl rfl)⟩
          · rw [if_neg h3]
            exact Or.inr ⟨⟨-32601, "Method not found: " ++ req.method, none⟩, rfl,
              Or.inr (Or.inl rfl)⟩
  · intro req h1 h2 h3
    rw [dispatch, if_neg h1, if_neg h2, if_neg h3]

/-- Witness for C5: with a healthy config and client but a failing
upstream GraphQL call, list_issues answers rpc_ok with isError true and
the error shape in structuredContent. -/
theorem tool_error_envelope_witness :
    (handle_list_issues sampleDeps false (some (RpcId.num 1))
        (JValue.obj [("owner", JValue.str "o"), ("repo", JValue.str "r")])).error = none ∧
    (handle_list_issues sampleDeps false (some (RpcId.num 1))
        (JValue.obj [("owner", JValue.str "o"), ("repo", JValue.str "r")])).id
      = some (RpcId.num 1) ∧
    ∃ w, (handle_list_issues sampleDeps false (some (RpcId.num 1))
        (JValue.obj [("owner", JValue.str "o"), ("repo", JValue.str "r")])).result = some w ∧
      wrapIsError w = some (JValue.bool true) ∧
      structured_error w = some (error_shape_to_json ⟨"upstream_error", "boom", true⟩) :=
  (tool_error_envelope sampleDeps (fun _ _ _ _ => Or.inl rfl)).1 false (some (RpcId.num 1))
    (JValue.obj [("owner", JValue.str "o"), ("repo", JValue.str "r")])
    ⟨"o", "r", none, none, none, none, none, none, none, none, none, none, none⟩
    30 ⟨"upstream_error", "boom", true⟩ none none rfl rfl rfl rfl rfl

/-- C9: a decoded request whose id is absent is a notification and the
stdio loop writes no response line for it, regardless of the method name;
and under the Request decoder an absent id member and a JSON null id
member both decode to an absent id, so both are silent. -/
theorem notification_silence :
    (∀ (d : ServerDeps) (v : JValue) (req : RpcRequest),
      decodeRequest v = some req → req.id = none → process_line d (some v) = none) ∧
    (∀ (d : ServerDeps) (fs : List (String × JValue)) (req : RpcRequest),
      (objGet fs "id" = none ∨ objGet fs "id" = some JValue.null) →
      decodeRequest (JValue.obj fs) = some req →
      req.id = none ∧ process_line d (some (JValue.obj fs)) = none) := by
  have hmain : ∀ (d : ServerDeps) (v : JValue) (req : RpcRequest),
      decodeRequest v = some req → req.id = none → process_line d (some v) = none := by
    intro d v req hdec hid
    simp [process_line, hdec, hid]
  refine ⟨hmain, ?_⟩
  intro d fs req hid hdec
  have hopt : optField fs "id" rpc_id_from_json = some none := by
    rcases hid with h | h <;> simp [optField, h]
  have hreqid : req.id = none := by
    have hdec2 := hdec
    simp only [decodeRequest] at hdec2
    rcases Option.bind_eq_some.mp hdec2 with ⟨j, hj, h2⟩
    rcases Option.bind_eq_some.mp h2 with ⟨m, hm, h3⟩
    rw [hopt] at h3
    injection h3 with h3
    subst h3
    rfl
  exact ⟨hreqid, hmain d _ req hdec hreqid⟩

/-- Witness for C9: a well-formed line with an unknown method and no id
member produces no response. -/
theorem notification_silence_witness :
    process_line sampleDeps (some (JValue.obj
      [("jsonrpc", JValue.str "2.0"), ("method", JValue.str "unknown/notify")])) = none :=
  notification_silence.1 sampleDeps
    (JValue.obj [("jsonrpc", JValue.str "2.0"), ("method", JValue.str "unknown/notify")])
    ⟨"2.0", "unknown/notify", JValue.null, none⟩ rfl rfl
